import Mathlib

/-!
Shallow embedding of `ValidateVtqCsv/validator.py`, a CSV validator for the
VTQ (vocational/technical qualification) submission layout, together with
proofs about its specification.

Modelling conventions:
* Python strings are Lean `String`; machine-independent.
* `str.strip()` is modelled by `pyStrip`, which strips the characters Python
  treats as whitespace (the Unicode whitespace set used by `str.strip`).
* Python `date` objects are `PyDate` triples; comparison of dates is by
  proleptic Gregorian ordinal (`toOrdinal`), which agrees with Python's
  lexicographic comparison on valid dates.  `date.today()` is threaded
  through as an explicit `today : PyDate` parameter.
* The DOB age test `(today - dt).days / 365.25 < 5 or ... > 80` is computed
  in IEEE doubles in Python; since 365.25 = 1461/4 is a dyadic rational and
  the day counts involved keep the quotient far from the thresholds (and
  29220/365.25 = 80 exactly, which is representable), the float comparison
  agrees exactly with the rational comparison `4*days < 7305 ∨ 4*days > 116880`,
  which is what the model uses.
* `datetime.strptime` with the two formats `%Y-%m-%d` and `%d/%m/%Y` is
  modelled structurally: exactly four ASCII digits for `%Y`, one or two
  digits for `%m`/`%d` with the value ranges CPython's `_strptime` regexes
  accept, followed by calendar validation as in the `datetime` constructor.
  (CPython's `\d` would also accept non-ASCII decimal digits; the model is
  ASCII-only, which covers every input the claims exercise.)
* `csv.reader` is modelled by `parseCsv`, a character automaton reproducing
  the CPython reader for the default dialect on input without the quote
  character: fields split on commas, records end at LF, CR or CRLF, a record
  terminator at record start yields an empty record, and a carriage return
  followed by anything other than CR/LF raises `csv.Error` (modelled as
  `Except.error ()`), exactly as observed in CPython.
* Python `repr` of strings (used in error messages) is modelled by `pyRepr`,
  which always uses single quotes and escapes backslash, quote, and the
  common control characters; messages are cosmetic and no claim depends on
  their exact spelling.
-/

/-- Code points of the characters `str.strip()` removes (Python's Unicode
whitespace set). -/
def pyWsCodes : List Nat :=
  [9, 10, 11, 12, 13, 28, 29, 30, 31, 32, 0x85, 0xA0, 0x1680,
   0x2000, 0x2001, 0x2002, 0x2003, 0x2004, 0x2005, 0x2006, 0x2007,
   0x2008, 0x2009, 0x200A, 0x2028, 0x2029, 0x202F, 0x205F, 0x3000]

/-- Whether a character is whitespace for Python's `str.strip()` / `str.split()`. -/
def isPyWs (c : Char) : Bool := pyWsCodes.contains c.toNat

/-- Python `s.strip()` with no arguments. -/
def pyStrip (s : String) : String :=
  String.mk (((s.data.dropWhile isPyWs).reverse.dropWhile isPyWs).reverse)

/-- Python `s.strip("﻿ ")`: strip byte-order marks and spaces from both ends. -/
def stripBomSpace (s : String) : String :=
  let p : Char → Bool := fun c => c == '﻿' || c == ' '
  String.mk (((s.data.dropWhile p).reverse.dropWhile p).reverse)

/-- A single-quote character, used when rebuilding Python `repr` strings. -/
def pyQuote : String := String.singleton (Char.ofNat 39)

/-- Escape of one character inside a Python single-quoted `repr`. -/
def pyReprChar (c : Char) : String :=
  if c = '\\' then "\\\\"
  else if c.toNat = 39 then "\\" ++ pyQuote
  else if c = '\n' then "\\n"
  else if c = '\r' then "\\r"
  else if c = '\t' then "\\t"
  else String.singleton c

/-- Python `repr` of a string (single-quoted form). -/
def pyRepr (s : String) : String :=
  pyQuote ++ String.join (s.data.map pyReprChar) ++ pyQuote

/-- Python `repr` of a list of strings, as interpolated by an f-string. -/
def pyListRepr (l : List String) : String :=
  "[" ++ String.intercalate ", " (l.map pyRepr) ++ "]"

/-- Whether `c` is an ASCII decimal digit. -/
def isAsciiDigit (c : Char) : Bool := 48 ≤ c.toNat && c.toNat ≤ 57

/-- Whether `c` is an ASCII uppercase letter. -/
def isUpperAZ (c : Char) : Bool := 65 ≤ c.toNat && c.toNat ≤ 90

/-- Numeric value of a list of ASCII digits. -/
def digitsToNat (cs : List Char) : Nat :=
  cs.foldl (fun a c => 10 * a + (c.toNat - 48)) 0

/-- Gregorian leap-year test, as in Python's `calendar`/`datetime`. -/
def isLeapYear (y : Nat) : Bool := y % 4 == 0 && (y % 100 != 0 || y % 400 == 0)

/-- Number of days in month `m` of year `y` (0 for an out-of-range month). -/
def daysInMonth (y m : Nat) : Nat :=
  match m with
  | 1 => 31 | 2 => if isLeapYear y then 29 else 28 | 3 => 31
  | 4 => 30 | 5 => 31 | 6 => 30 | 7 => 31 | 8 => 31
  | 9 => 30 | 10 => 31 | 11 => 30 | 12 => 31
  | _ => 0

/-- Days in year `y` strictly before month `m`. -/
def daysBeforeMonth (y m : Nat) : Nat :=
  (List.range (m - 1)).foldl (fun a i => a + daysInMonth y (i + 1)) 0

/-- A Python `datetime.date` value. -/
structure PyDate where
  year : Nat
  month : Nat
  day : Nat
deriving DecidableEq, Repr

/-- Proleptic Gregorian ordinal of a date (`date.toordinal()` in Python);
dates compare like their ordinals. -/
def toOrdinal (d : PyDate) : Nat :=
  365 * (d.year - 1) + (d.year - 1) / 4 - (d.year - 1) / 100 + (d.year - 1) / 400
    + daysBeforeMonth d.year d.month + d.day

/-- The lower date bound `date(1900, 1, 1)` used by the range check. -/
def date1900 : PyDate := ⟨1900, 1, 1⟩

/-- Split a character list on a separator character (Python `str.split(sep)`,
so `""` yields one empty part and separators delimit possibly-empty parts). -/
def splitChar (sep : Char) : List Char → List (List Char)
  | [] => [[]]
  | c :: rest =>
    if c = sep then [] :: splitChar sep rest
    else
      match splitChar sep rest with
      | [] => [[c]]
      | h :: t => (c :: h) :: t

/-- A `%Y` year token: exactly four ASCII digits. -/
def fourDigitYear (cs : List Char) : Option Nat :=
  if cs.length == 4 && cs.all isAsciiDigit then some (digitsToNat cs) else none

/-- A `%m`-style month token: one or two ASCII digits with value 1..12
(the forms CPython's `_strptime` month regex accepts). -/
def monthToken (cs : List Char) : Option Nat :=
  let n := digitsToNat cs
  if (cs.length == 1 || cs.length == 2) && cs.all isAsciiDigit && 1 ≤ n && n ≤ 12 then
    some n
  else none

/-- A `%d`-style day token: one or two ASCII digits with value 1..31. -/
def dayToken (cs : List Char) : Option Nat :=
  let n := digitsToNat cs
  if (cs.length == 1 || cs.length == 2) && cs.all isAsciiDigit && 1 ≤ n && n ≤ 31 then
    some n
  else none

/-- Calendar validation applied by the `datetime.date` constructor. -/
def mkDateChecked (y m d : Nat) : Option PyDate :=
  if 1 ≤ y && y ≤ 9999 && 1 ≤ m && m ≤ 12 && 1 ≤ d && d ≤ daysInMonth y m then
    some ⟨y, m, d⟩
  else none

/-- `datetime.strptime(v, "%Y-%m-%d")`, returning `none` where Python raises
`ValueError`. -/
def tryIsoFormat (v : String) : Option PyDate :=
  match splitChar '-' v.data with
  | [ys, ms, ds] =>
    match fourDigitYear ys, monthToken ms, dayToken ds with
    | some y, some m, some d => mkDateChecked y m d
    | _, _, _ => none
  | _ => none

/-- `datetime.strptime(v, "%d/%m/%Y")`, returning `none` where Python raises
`ValueError`. -/
def tryDmyFormat (v : String) : Option PyDate :=
  match splitChar '/' v.data with
  | [ds, ms, ys] =>
    match fourDigitYear ys, monthToken ms, dayToken ds with
    | some y, some m, some d => mkDateChecked y m d
    | _, _, _ => none
  | _ => none

/-- The two sentinel date spellings (`SENTINEL_DATES` in the source). -/
def SENTINEL_DATES : List String := ["2999-12-31", "31/12/2999"]

/-- `parse_date` from the source: strip, test for blank, test for the sentinel
spellings, then try the two formats in order.  Returns `(date?, is_sentinel)`. -/
def parse_date (value : String) : Option PyDate × Bool :=
  let v := pyStrip value
  if v = "" then (none, false)
  else if SENTINEL_DATES.contains v then (none, true)
  else
    match tryIsoFormat v with
    | some d => (some d, false)
    | none =>
      match tryDmyFormat v with
      | some d => (some d, false)
      | none => (none, false)

/-- The fixed 34-column schema (`EXPECTED_COLUMNS` in the source). -/
def EXPECTED_COLUMNS : List String :=
  ["RecordType",
   "UniqueCandidateIdentifier",
   "UniqueLearnerNumber",
   "UniquePupilNumber",
   "CandidateIdentifierOther",
   "FirstName",
   "MiddleNames",
   "Surname",
   "Sex",
   "DOB",
   "NCN",
   "CentreURN",
   "LAESTAB",
   "CentreIdentifierOther",
   "UKPRN",
   "CentreName",
   "CentreAddress1",
   "CentreAddress2",
   "CentreAddress3",
   "CentreAddress4",
   "CentrePostcode",
   "CentreType",
   "QualificationNumberType",
   "QualificationNumber",
   "SpecificationCode",
   "SpecificationTitle",
   "QualificationType",
   "ExamSeries",
   "RegistrationDate",
   "FirstEntryDate",
   "AwardDate",
   "QualificationGrade",
   "PrivateCandidate",
   "PartialAbsence"]

/-- Full match of an anchored run of exactly `n` ASCII digits. -/
def reDigits (n : Nat) (s : String) : Bool :=
  s.length == n && s.data.all isAsciiDigit

/-- Full match of the anchored `[A-Z0-9]` run of exactly 13 characters. -/
def reUpperAlnum13 (s : String) : Bool :=
  s.length == 13 && s.data.all (fun c => isUpperAZ c || isAsciiDigit c)

/-- English month names, as in the ExamSeries regex alternation. -/
def monthNames : List String :=
  ["January", "February", "March", "April", "May", "June", "July",
   "August", "September", "October", "November", "December"]

/-- Full match of the ExamSeries regex: month name, a space, four digits. -/
def reExamSeries (s : String) : Bool :=
  monthNames.any fun mn =>
    s.startsWith (mn ++ " ") &&
      (s.drop (mn.length + 1)).length == 4 && (s.drop (mn.length + 1)).data.all isAsciiDigit

/-- Consume exactly `n` leading characters satisfying `p`, returning the rest. -/
def takeExact (p : Char → Bool) : Nat → List Char → Option (List Char)
  | 0, cs => some cs
  | _ + 1, [] => none
  | n + 1, c :: cs => if p c then takeExact p n cs else none

/-- Tail of the UK postcode regex after the outward part: a whitespace run,
a digit, then two uppercase letters, then end of string. -/
def ukPostcodeTail (cs : List Char) : Bool :=
  match cs.dropWhile isPyWs with
  | [d, a, b] => isAsciiDigit d && isUpperAZ a && isUpperAZ b
  | _ => false

/-- Full match of the simplified UK postcode regex. -/
def reUKPostcode (s : String) : Bool :=
  [2, 1].any fun nl =>
    match takeExact isUpperAZ nl s.data with
    | none => false
    | some r1 =>
      match r1 with
      | d :: r2 =>
        isAsciiDigit d &&
          ([1, 0].any fun nopt =>
            match takeExact (fun c => isUpperAZ c || isAsciiDigit c) nopt r2 with
            | none => false
            | some r3 => ukPostcodeTail r3)
      | [] => false

/-- Full match of the BFPO postcode regex. -/
def reBFPOPostcode (s : String) : Bool :=
  match s.data with
  | 'B' :: 'F' :: 'P' :: 'O' :: rest =>
    let r := rest.dropWhile isPyWs
    decide (1 ≤ r.length) && decide (r.length ≤ 4) && r.all isAsciiDigit
  | _ => false

/-- Leading letter class `[AC-FHKNPRTV-Y]` of the Irish postcode regex. -/
def isIrishLead (c : Char) : Bool := "ACDEFHKNPRTVWXY".data.contains c

/-- Final character class `[0-9AC-FHKNPRTV-Y]` of the Irish postcode regex. -/
def isIrishTailChar (c : Char) : Bool := isAsciiDigit c || isIrishLead c

/-- Full match of the simplified Irish postcode regex. -/
def reIrishPostcode (s : String) : Bool :=
  match s.data with
  | c0 :: rest =>
    isIrishLead c0 &&
      ([2, 1].any fun nd =>
        match takeExact isAsciiDigit nd rest with
        | none => false
        | some r2 =>
          [1, 0].any fun nopt =>
            match takeExact (fun c => isAsciiDigit c || isUpperAZ c) nopt r2 with
            | none => false
            | some r3 =>
              match r3.dropWhile isPyWs with
              | [a, b, c, d] =>
                isIrishTailChar a && isIrishTailChar b && isIrishTailChar c && isIrishTailChar d
              | _ => false)
  | [] => false

/-- The combined `CENTRE_POSTCODE_RE` alternation. -/
def reCentrePostcode (s : String) : Bool :=
  reUKPostcode s || reBFPOPostcode s || reIrishPostcode s

/-- Declarative per-field constraints (`FieldSpec` in the source).  A pattern
is carried as its source text (for messages) together with its full-match
semantics as a Lean predicate. -/
structure FieldSpec where
  name : String
  mandatory : Bool := false
  allow_minus2 : Bool := false
  length : Option Nat := none
  min_length : Option Nat := none
  max_length : Option Nat := none
  allowed_values : Option (List String) := none
  fieldPattern : Option (String × (String → Bool)) := none
  type : Option String := none

/-- `QUALIFICATION_TYPE_VALUES`, stored in Python's `sorted` order. -/
def QUALIFICATION_TYPE_VALUES : List String :=
  ["Alternative Academic Qualification",
   "Apprenticeship Assessment Qualification",
   "Digital Functional Skills Qualification",
   "End-Point Assessment",
   "English For Speakers of Other Languages",
   "Essential Digital Skills",
   "Essential Skills (Northern Ireland)",
   "Functional Skills",
   "Key Skills",
   "Occupational Qualification",
   "Other General Qualification",
   "Other Life Skills Qualification",
   "Other Vocational Qualification",
   "Performing Arts Graded Examination",
   "QCF",
   "Technical Occupation Qualification",
   "Technical Qualification",
   "Vocationally-Related Qualification"]

/-- `{str(i) for i in range(1, 14)}`, in Python's string-sorted order. -/
def centreTypeValues : List String :=
  ["1", "10", "11", "12", "13", "2", "3", "4", "5", "6", "7", "8", "9"]

/-- The `FIELD_SPECS` table: spec lookup by column name (`dict.get`). -/
def FIELD_SPECS (field : String) : Option FieldSpec :=
  match field with
  | "RecordType" => some
    { name := "RecordType", mandatory := true,
      allowed_values := some ["Amendment", "Deletion", "Entry", "Result"] }
  | "UniqueCandidateIdentifier" => some
    { name := "UniqueCandidateIdentifier", allow_minus2 := true, length := some 13,
      fieldPattern := some ("^[A-Z0-9]\x7b13\x7d$", reUpperAlnum13) }
  | "UniqueLearnerNumber" => some
    { name := "UniqueLearnerNumber", allow_minus2 := true, length := some 10,
      fieldPattern := some ("^\\d\x7b10\x7d$", reDigits 10) }
  | "UniquePupilNumber" => some
    { name := "UniquePupilNumber", allow_minus2 := true, length := some 13,
      fieldPattern := some ("^[A-Z0-9]\x7b13\x7d$", reUpperAlnum13) }
  | "CandidateIdentifierOther" => some
    { name := "CandidateIdentifierOther", allow_minus2 := true,
      min_length := some 1, max_length := some 20 }
  | "FirstName" => some
    { name := "FirstName", mandatory := true, min_length := some 1, max_length := some 150 }
  | "MiddleNames" => some
    { name := "MiddleNames", min_length := some 1, max_length := some 150 }
  | "Surname" => some
    { name := "Surname", mandatory := true, min_length := some 1, max_length := some 150 }
  | "Sex" => some
    { name := "Sex", mandatory := true, allow_minus2 := true,
      allowed_values := some ["F", "M"] }
  | "DOB" => some { name := "DOB", type := some "date" }
  | "NCN" => some
    { name := "NCN", mandatory := true, allow_minus2 := true, length := some 5,
      fieldPattern := some ("^\\d\x7b5\x7d$", reDigits 5) }
  | "CentreURN" => some
    { name := "CentreURN", mandatory := true, allow_minus2 := true, length := some 6,
      fieldPattern := some ("^\\d\x7b6\x7d$", reDigits 6) }
  | "LAESTAB" => some
    { name := "LAESTAB", mandatory := true, allow_minus2 := true, length := some 8 }
  | "CentreIdentifierOther" => some
    { name := "CentreIdentifierOther", mandatory := true, allow_minus2 := true,
      min_length := some 1, max_length := some 15 }
  | "UKPRN" => some
    { name := "UKPRN", mandatory := true, allow_minus2 := true, length := some 8,
      fieldPattern := some ("^\\d\x7b8\x7d$", reDigits 8) }
  | "CentreName" => some
    { name := "CentreName", min_length := some 1, max_length := some 150 }
  | "CentreAddress1" => some
    { name := "CentreAddress1", min_length := some 1, max_length := some 150 }
  | "CentreAddress2" => some
    { name := "CentreAddress2", min_length := some 1, max_length := some 150 }
  | "CentreAddress3" => some
    { name := "CentreAddress3", min_length := some 1, max_length := some 150 }
  | "CentreAddress4" => some
    { name := "CentreAddress4", min_length := some 1, max_length := some 150 }
  | "CentrePostcode" => some
    { name := "CentrePostcode", mandatory := true, allow_minus2 := true,
      fieldPattern := some
        ("^([A-Z]\x7b1,2\x7d\\d[A-Z\\d]?\\s*\\d[A-Z]\x7b2\x7d|BFPO\\s*\\d\x7b1,4\x7d|[AC-FHKNPRTV-Y]\\d\x7b1,2\x7d[0-9A-Z]?\\s*[0-9AC-FHKNPRTV-Y]\x7b4\x7d)$",
         reCentrePostcode) }
  | "CentreType" => some
    { name := "CentreType", mandatory := true, allow_minus2 := true,
      allowed_values := some centreTypeValues }
  | "QualificationNumberType" => some
    { name := "QualificationNumberType", mandatory := true,
      allowed_values := some ["Other", "QAN"] }
  | "QualificationNumber" => some
    { name := "QualificationNumber", mandatory := true,
      min_length := some 1, max_length := some 10 }
  | "SpecificationCode" => some
    { name := "SpecificationCode", mandatory := true, allow_minus2 := true,
      min_length := some 1, max_length := some 20 }
  | "SpecificationTitle" => some
    { name := "SpecificationTitle", mandatory := true,
      min_length := some 1, max_length := some 250 }
  | "QualificationType" => some
    { name := "QualificationType", mandatory := true,
      allowed_values := some QUALIFICATION_TYPE_VALUES }
  | "ExamSeries" => some
    { name := "ExamSeries", mandatory := true, allow_minus2 := true,
      fieldPattern := some
        ("^(January|February|March|April|May|June|July|August|September|October|November|December) \\d\x7b4\x7d$",
         reExamSeries) }
  | "RegistrationDate" => some
    { name := "RegistrationDate", mandatory := true, type := some "date" }
  | "FirstEntryDate" => some { name := "FirstEntryDate", type := some "date" }
  | "AwardDate" => some { name := "AwardDate", type := some "date" }
  | "QualificationGrade" => some
    { name := "QualificationGrade", allow_minus2 := true,
      min_length := some 1, max_length := some 20 }
  | "PrivateCandidate" => some
    { name := "PrivateCandidate", mandatory := true, allow_minus2 := true,
      allowed_values := some ["0", "1"] }
  | "PartialAbsence" => some
    { name := "PartialAbsence", mandatory := true, allow_minus2 := true,
      allowed_values := some ["0", "1"] }
  | _ => none

/-- The 12 fields on which the exclusions document permits a literal `-2`. -/
def EXCLUSION_MINUS2_FIELDS : List String :=
  ["UKPRN",
   "UniqueCandidateIdentifier",
   "UniqueLearnerNumber",
   "UniquePupilNumber",
   "NCN",
   "CentreURN",
   "LAESTAB",
   "SpecificationCode",
   "ExamSeries",
   "QualificationGrade",
   "PrivateCandidate",
   "PartialAbsence"]

/-- Whether `small` occurs at the start of `big` (character lists). -/
def startsList : List Char → List Char → Bool
  | [], _ => true
  | _ :: _, [] => false
  | a :: as, b :: bs => a == b && startsList as bs

/-- Whether `nd` occurs as a contiguous substring of the character list
(Python's `in` on strings). -/
def substrAux (nd : List Char) : List Char → Bool
  | [] => startsList nd []
  | c :: rest => startsList nd (c :: rest) || substrAux nd rest

/-- Python `needle in hay` for strings. -/
def strContains (needle hay : String) : Bool := substrAux needle.data hay.data

/-- `is_permitted_exclusion` from the source: decide whether a raised field
error is suppressed by a documented carve-out.  (As in the source, the
`error_code` argument is not consulted.) -/
def is_permitted_exclusion (field value _error_code : String) : Bool :=
  let v := pyStrip value
  if v == "-2" && EXCLUSION_MINUS2_FIELDS.contains field then true
  else if field == "QualificationNumber" && strContains "/x" v then true
  else if field == "MiddleNames" && v == "" then true
  else if field == "Sex" && v == "" then true
  else false

/-- The three fields whose mandatoriness is conditional on record type. -/
def conditional_mandatory : List String :=
  ["FirstEntryDate", "AwardDate", "QualificationGrade"]

/-- Date handling of `validate_field` on an already-stripped non-blank value:
format check, the 1900 lower bound, and the DOB age window. -/
def date_field_errors (field v : String) (today : PyDate) : List (String × String) :=
  let pd := parse_date v
  if pd.1.isNone && !pd.2 then
    [("DATE_FORMAT", "Invalid date format: " ++ pyRepr v)]
  else
    match pd.1 with
    | none => []
    | some dt =>
      (if toOrdinal dt < toOrdinal date1900 then
        [("DATE_RANGE", "Date " ++ pyRepr v ++ " must be on or after 1900-01-01")]
       else []) ++
      (if field == "DOB" then
        (if 4 * ((toOrdinal today : Int) - (toOrdinal dt : Int)) < 7305 ||
            4 * ((toOrdinal today : Int) - (toOrdinal dt : Int)) > 116880 then
           [("DATE_RANGE", "Age from DOB " ++ pyRepr v ++ " must be between 5 and 80 years")]
         else [])
       else [])

/-- Checks 5-9 of `validate_field` (allowed values, pattern, exact length,
minimum and maximum length) on an already-stripped non-blank value; the five
checks are independent and accumulate. -/
def shape_field_errors (spec : FieldSpec) (v : String) : List (String × String) :=
  (match spec.allowed_values with
   | some av =>
     if av.contains v then []
     else [("VALUE", "Value " ++ pyRepr v ++ " not in allowed set: " ++ pyListRepr av)]
   | none => []) ++
  (match spec.fieldPattern with
   | some pat =>
     if pat.2 v then []
     else [("PATTERN", "Value " ++ pyRepr v ++ " does not match pattern " ++ pyRepr pat.1)]
   | none => []) ++
  (match spec.length with
   | some n =>
     if v.length ≠ n then
       [("LENGTH", "Value " ++ pyRepr v ++ " must be exactly " ++ toString n ++ " characters")]
     else []
   | none => []) ++
  (match spec.min_length with
   | some n =>
     if v.length < n then
       [("MIN_LENGTH", "Value " ++ pyRepr v ++ " must be at least " ++ toString n ++ " characters")]
     else []
   | none => []) ++
  (match spec.max_length with
   | some n =>
     if v.length > n then
       [("MAX_LENGTH", "Value " ++ pyRepr v ++ " must be at most " ++ toString n ++ " characters")]
     else []
   | none => [])

/-- `validate_field` from the source: validate one field value against
`FIELD_SPECS` plus the date rules, returning `(error_code, message)` pairs.
`record_type` is accepted and ignored, as in the source; `today` stands for
`date.today()` in the DOB age check. -/
def validate_field (field value record_type : String) (today : PyDate) :
    List (String × String) :=
  match FIELD_SPECS field with
  | none => []
  | some spec =>
    let v := pyStrip value
    if spec.mandatory && !(conditional_mandatory.contains field) && v == "" then
      [("MISSING", "Mandatory field is blank")]
    else if v == "" then []
    else if v == "-2" && spec.allow_minus2 then []
    else if spec.type == some "date" then date_field_errors field v today
    else shape_field_errors spec v

/-- One detected violation (`ValidationError` dataclass in the source). -/
structure ValidationError where
  row_number : Nat
  field : String
  error_code : String
  message : String
  value : String
deriving DecidableEq, Repr

/-- Identifier-group rule of `validate_record_level`: all four learner
identifiers blank yields one `GROUP_RULE` error. -/
def group_rule_errors (row : String → String) (row_number : Nat) : List ValidationError :=
  if pyStrip (row "UniqueCandidateIdentifier") == "" &&
     pyStrip (row "UniqueLearnerNumber") == "" &&
     pyStrip (row "UniquePupilNumber") == "" &&
     pyStrip (row "CandidateIdentifierOther") == "" then
    [⟨row_number, "LearnerIdentifierGroup", "GROUP_RULE",
      "At least one learner identifier (UCI/ULN/UPN/Other) must be supplied.", ""⟩]
  else []

/-- One conditional-mandatory check for Result/Amendment records. -/
def conditional_missing_error (row : String → String) (row_number : Nat)
    (record_type fname : String) : List ValidationError :=
  if pyStrip (row fname) == "" then
    [⟨row_number, fname, "MISSING",
      fname ++ " is mandatory for RecordType=" ++ record_type ++ ".", row fname⟩]
  else []

/-- Conditional-mandatory rules of `validate_record_level` (Result/Amendment). -/
def conditional_mandatory_errors (row : String → String) (row_number : Nat) :
    List ValidationError :=
  let record_type := pyStrip (row "RecordType")
  if record_type == "Result" || record_type == "Amendment" then
    conditional_missing_error row row_number record_type "FirstEntryDate" ++
      conditional_missing_error row row_number record_type "AwardDate" ++
      conditional_missing_error row row_number record_type "QualificationGrade"
  else []

/-- One Entry-record sentinel check for FirstEntryDate/AwardDate. -/
def entry_date_rule_error (row : String → String) (row_number : Nat) (fname : String) :
    List ValidationError :=
  let val := pyStrip (row fname)
  if !(SENTINEL_DATES.contains val) then
    [⟨row_number, fname, "ENTRY_RULE",
      "For RecordType=Entry, " ++ fname ++ " must be 2999-12-31 or 31/12/2999.", val⟩]
  else []

/-- Entry-specific rules of `validate_record_level`. -/
def entry_rule_errors (row : String → String) (row_number : Nat) : List ValidationError :=
  if pyStrip (row "RecordType") == "Entry" then
    (let qg := pyStrip (row "QualificationGrade")
     if !(qg == "-2") then
       [⟨row_number, "QualificationGrade", "ENTRY_RULE",
         "For RecordType=Entry, QualificationGrade must be " ++ pyQuote ++ "-2" ++ pyQuote ++ ".",
         qg⟩]
     else []) ++
    entry_date_rule_error row row_number "FirstEntryDate" ++
    entry_date_rule_error row row_number "AwardDate"
  else []

/-- Result/Amendment date and grade rules of `validate_record_level`. -/
def result_amendment_errors (row : String → String) (row_number : Nat) (today : PyDate) :
    List ValidationError :=
  let record_type := pyStrip (row "RecordType")
  if record_type == "Result" || record_type == "Amendment" then
    let reg_str := pyStrip (row "RegistrationDate")
    let fe_str := pyStrip (row "FirstEntryDate")
    let aw_str := pyStrip (row "AwardDate")
    let regP := parse_date reg_str
    let feP := parse_date fe_str
    let awP := parse_date aw_str
    (if feP.2 then
      [⟨row_number, "FirstEntryDate", "SENTINEL_NOT_ALLOWED",
        "FirstEntryDate sentinel allowed only when RecordType=Entry.", fe_str⟩]
     else []) ++
    (if awP.2 then
      [⟨row_number, "AwardDate", "SENTINEL_NOT_ALLOWED",
        "AwardDate sentinel allowed only when RecordType=Entry.", aw_str⟩]
     else []) ++
    (match feP.1 with
     | some fe =>
       if toOrdinal today < toOrdinal fe then
         [⟨row_number, "FirstEntryDate", "DATE_FUTURE",
           "FirstEntryDate must not be in the future for Result/Amendment.", fe_str⟩]
       else []
     | none => []) ++
    (match awP.1 with
     | some aw =>
       if toOrdinal today < toOrdinal aw then
         [⟨row_number, "AwardDate", "DATE_FUTURE",
           "AwardDate must not be in the future for Result/Amendment.", aw_str⟩]
       else []
     | none => []) ++
    (match awP.1, feP.1 with
     | some aw, some fe =>
       if toOrdinal aw < toOrdinal fe then
         [⟨row_number, "AwardDate", "DATE_ORDER",
           "AwardDate must be on or after FirstEntryDate.", aw_str⟩]
       else []
     | _, _ => []) ++
    (match awP.1, regP.1 with
     | some aw, some reg =>
       if toOrdinal aw < toOrdinal reg then
         [⟨row_number, "AwardDate", "DATE_ORDER",
           "AwardDate must be on or after RegistrationDate.", aw_str⟩]
       else []
     | _, _ => []) ++
    (let qg := pyStrip (row "QualificationGrade")
     if qg == "-2" then
       [⟨row_number, "QualificationGrade", "RESULT_RULE",
         "For Result/Amendment, QualificationGrade cannot be " ++ pyQuote ++ "-2" ++ pyQuote ++ ".",
         qg⟩]
     else [])
  else []

/-- `validate_record_level` from the source: cross-field rules for one row,
in source order.  The row mapping is modelled as a total function defaulting
to `""` (`row.get(f) or ""`); `today` stands for `date.today()`. -/
def validate_record_level (row : String → String) (row_number : Nat) (today : PyDate) :
    List ValidationError :=
  group_rule_errors row row_number ++
    conditional_mandatory_errors row row_number ++
    entry_rule_errors row row_number ++
    result_amendment_errors row row_number today

/-- `dict(zip(EXPECTED_COLUMNS, row))` with lookup defaulting to `""`. -/
def rowToMap (cells : List String) (f : String) : String :=
  match (EXPECTED_COLUMNS.zip cells).find? (fun p => p.1 == f) with
  | some p => p.2
  | none => ""

/-- The per-row field-validation loop of `validate_csv_stream`: run
`validate_field` on each schema column in order and keep the violations the
exclusion policy does not suppress. -/
def fieldLoop (m : String → String) (row_idx : Nat) (record_type : String) (today : PyDate) :
    List ValidationError :=
  EXPECTED_COLUMNS.flatMap fun field_name =>
    (validate_field field_name (m field_name) record_type today).filterMap fun ce =>
      if is_permitted_exclusion field_name (m field_name) ce.1 then none
      else some ⟨row_idx, field_name, ce.1, ce.2, m field_name⟩

/-- Row-shape normalization of `validate_csv_stream`: right-pad with empty
strings or truncate to exactly the 34 schema columns. -/
def padTo34 (row : List String) : List String :=
  if row.length < EXPECTED_COLUMNS.length then
    row ++ List.replicate (EXPECTED_COLUMNS.length - row.length) ""
  else if row.length > EXPECTED_COLUMNS.length then
    row.take EXPECTED_COLUMNS.length
  else row

/-- The body of the data-row loop of `validate_csv_stream` for one physical
row: blank-row skip, column-count check, pad/truncate, duplicate detection,
field-level loop, record-level rules.  Returns the errors this row produces
together with the updated duplicate-detection set (modelled as a list used
only for membership). -/
def processRow (today : PyDate) (seen : List (List String)) (row_idx : Nat)
    (row : List String) : List ValidationError × List (List String) :=
  if row.all (fun cell => pyStrip cell == "") then ([], seen)
  else
    let colErrs :=
      if !(row.length == EXPECTED_COLUMNS.length) then
        [⟨row_idx, "*ROW*", "COLUMN_COUNT",
          "Row must contain " ++ toString EXPECTED_COLUMNS.length ++ " columns, found " ++
            toString row.length ++ ".", ""⟩]
      else []
    let padded := padTo34 row
    let dupErrs :=
      if seen.contains padded then
        [⟨row_idx, "*ROW*", "DUPLICATE_ROW", "Duplicate row within submission.", ""⟩]
      else []
    let seen2 := if seen.contains padded then seen else padded :: seen
    let m := rowToMap padded
    let record_type := pyStrip (m "RecordType")
    (colErrs ++ dupErrs ++ fieldLoop m row_idx record_type today ++
       validate_record_level m row_idx today,
     seen2)

/-- The data-row loop of `validate_csv_stream`: every physical row advances
the row counter, whether or not it is skipped. -/
def runRows (today : PyDate) : List (List String) → List (List String) → Nat →
    List ValidationError
  | [], _, _ => []
  | row :: rest, seen, row_idx =>
    let pr := processRow today seen (row_idx + 1) row
    pr.1 ++ runRows today rest pr.2 (row_idx + 1)

/-- The `EMPTY` error for input with no rows at all. -/
def emptyFileError : ValidationError :=
  ⟨1, "*FILE*", "EMPTY", "File is empty.", ""⟩

/-- Normalization of one header cell: `h.strip("﻿ ").strip()`. -/
def stripHeaderCell (h : String) : String := pyStrip (stripBomSpace h)

/-- The `HEADER_MISMATCH` error for a normalized header row `hdr`. -/
def headerMismatchError (hdr : List String) : ValidationError :=
  ⟨1, "*HEADER*", "HEADER_MISMATCH",
   "Header row does not match expected VTQ specification. Expected: " ++
     pyListRepr EXPECTED_COLUMNS ++ "; Found: " ++ pyListRepr hdr, ""⟩

/-- `validate_csv_stream` from the source, over the row list the CSV reader
produced: no rows at all is the `EMPTY` case, otherwise the first row is the
header (checked against the schema) and the rest are data rows. -/
def validate_csv_stream (rows : List (List String)) (today : PyDate) :
    List ValidationError :=
  match rows with
  | [] => [emptyFileError]
  | header :: rest =>
    let hdr := header.map stripHeaderCell
    (if !(hdr == EXPECTED_COLUMNS) then [headerMismatchError hdr] else []) ++
      runRows today rest [] 1

/-- Parser mode of the `csv.reader` automaton (default dialect, no quote
handling; quote characters are treated as ordinary field characters, which
matches CPython whenever the input contains no `"`). -/
inductive CsvMode where
  | startRecord : CsvMode
  | inField : List String → List Char → CsvMode
  | eatCrnl : List String → CsvMode

/-- Character automaton of CPython's `csv.reader`: fields split on commas,
records end at LF, CR or CRLF; a CR followed by anything other than CR/LF
raises `csv.Error` (the `Except.error` case). -/
def csvGo : List Char → CsvMode → Except Unit (List (List String))
  | [], .startRecord => .ok []
  | [], .inField row fld => .ok [row ++ [String.mk fld]]
  | [], .eatCrnl pending => .ok [pending]
  | c :: rest, .startRecord =>
    if c = '\n' then (csvGo rest .startRecord).map (([] : List String) :: ·)
    else if c = '\r' then csvGo rest (.eatCrnl [])
    else if c = ',' then csvGo rest (.inField [""] [])
    else csvGo rest (.inField [] [c])
  | c :: rest, .inField row fld =>
    if c = ',' then csvGo rest (.inField (row ++ [String.mk fld]) [])
    else if c = '\n' then (csvGo rest .startRecord).map ((row ++ [String.mk fld]) :: ·)
    else if c = '\r' then csvGo rest (.eatCrnl (row ++ [String.mk fld]))
    else csvGo rest (.inField row (fld ++ [c]))
  | c :: rest, .eatCrnl pending =>
    if c = '\n' then (csvGo rest .startRecord).map (pending :: ·)
    else if c = '\r' then csvGo rest (.eatCrnl pending)
    else .error ()

/-- `list(csv.reader(StringIO(s)))`, or `csv.Error`. -/
def parseCsv (s : String) : Except Unit (List (List String)) :=
  csvGo s.data .startRecord

/-- `validate_csv_text` from the source: read the text as CSV and validate.
A `csv.Error` raised by the reader propagates (the `Except.error` case). -/
def validate_csv_text (csv_text : String) (today : PyDate) :
    Except Unit (List ValidationError) :=
  (parseCsv csv_text).map (fun rows => validate_csv_stream rows today)

/-- Two sequential invocations of `validate_csv_text` on the same text and
clock value, as a pair. -/
def validateTwice (csv_text : String) (today : PyDate) :
    Except Unit (List ValidationError) × Except Unit (List ValidationError) :=
  (validate_csv_text csv_text today, validate_csv_text csv_text today)

/-! ### Basic lemmas about the helpers -/

theorem pyStrip_of_all_ws {s : String} (h : ∀ c ∈ s.data, isPyWs c = true) :
    pyStrip s = "" := by
  unfold pyStrip
  have h1 : s.data.dropWhile isPyWs = [] := by
    rw [List.dropWhile_eq_nil_iff]; exact fun x hx => h x hx
  rw [h1]
  rfl

theorem stripBomSpace_mem {s : String} {c : Char} (h : c ∈ (stripBomSpace s).data) :
    c ∈ s.data := by
  unfold stripBomSpace at h
  simp only [String.data] at h
  have h2 := (List.dropWhile_sublist _).subset (List.mem_reverse.mp h)
  exact (List.dropWhile_sublist _).subset (List.mem_reverse.mp h2)

theorem stripHeaderCell_of_all_ws {s : String} (h : ∀ c ∈ s.data, isPyWs c = true) :
    stripHeaderCell s = "" := by
  unfold stripHeaderCell
  exact pyStrip_of_all_ws (fun c hc => h c (stripBomSpace_mem hc))

/-! ### C2: the date parser's blank and unparsable outcomes -/

/-- C2 (counterexample): the claim says the empty-input outcome of the date
parser is distinguishable from its unparsable outcome; in the code both are
the very same value `(None, False)`.  Here `""` trims to empty while `"x"`
is non-blank, is not a sentinel spelling, and matches neither format. -/
theorem parse_date_blank_equals_unparsable :
    parse_date "" = parse_date "x" ∧
    parse_date "" = (none, false) ∧
    pyStrip "x" ≠ "" ∧
    SENTINEL_DATES.contains (pyStrip "x") = false := by
  refine ⟨by decide, rfl, by decide, by decide⟩

/-- C2 (amended): every input that trims to empty yields the no-date result
`(none, false)`, and the parser's output is always one of the three value
shapes `(some date, false)`, `(none, true)` (sentinel), `(none, false)` —
but the blank case and the unparsable case share the shape `(none, false)`,
so they are not distinguishable from the returned value alone. -/
theorem parse_date_three_shapes (v : String) :
    (pyStrip v = "" → parse_date v = (none, false)) ∧
    ¬((parse_date v).1.isSome = true ∧ (parse_date v).2 = true) := by
  constructor
  · intro h
    unfold parse_date
    rw [h]
    rfl
  · rintro ⟨h1, h2⟩
    unfold parse_date at h1 h2
    by_cases hb : pyStrip v = ""
    · rw [hb] at h2; simp at h2
    · rw [if_neg hb] at h1 h2
      by_cases hs : SENTINEL_DATES.contains (pyStrip v) = true
      · rw [if_pos hs] at h1; simp at h1
      · rw [if_neg hs] at h2
        rcases hI : tryIsoFormat (pyStrip v) with _ | d
        · rw [hI] at h2
          rcases hD : tryDmyFormat (pyStrip v) with _ | d
          · rw [hD] at h2; simp at h2
          · rw [hD] at h2; simp at h2
        · rw [hI] at h2; simp at h2

/-- C2 (witness): the amended theorem applied at the blank input. -/
theorem parse_date_three_shapes_witness :
    parse_date "" = (none, false) ∧
    ¬((parse_date "x").1.isSome = true ∧ (parse_date "x").2 = true) :=
  ⟨(parse_date_three_shapes "").1 rfl, (parse_date_three_shapes "x").2⟩

/-! ### C5: all-blank rows are invisible except for row numbering -/

/-- C5: a data row whose cells are all blank/whitespace produces no errors,
is neither entered into nor compared against the duplicate-detection set
(the seen-set is returned unchanged), and no field or record rules run on
it; yet the row loop still advances the physical row counter, so later rows
keep their physical 1-based positions. -/
theorem blank_row_invisible (today : PyDate) (seen : List (List String))
    (row_idx : Nat) (row : List String) (rest : List (List String))
    (h : ∀ cell ∈ row, pyStrip cell = "") :
    processRow today seen row_idx row = ([], seen) ∧
      runRows today (row :: rest) seen row_idx = runRows today rest seen (row_idx + 1) := by
  have hall : row.all (fun cell => pyStrip cell == "") = true := by
    rw [List.all_eq_true]
    intro c hc
    simpa using h c hc
  have hpr : processRow today seen (row_idx + 1) row = ([], seen) := by
    unfold processRow
    rw [hall]
    rfl
  refine ⟨?_, ?_⟩
  · unfold processRow
    rw [hall]
    rfl
  · show (processRow today seen (row_idx + 1) row).1 ++ _ = _
    rw [hpr]
    rfl

/-- C5 (witness): the theorem applied to a concrete whitespace-only row. -/
theorem blank_row_invisible_witness :
    processRow ⟨2026, 10, 12⟩ [["x"]] 7 ["", "  ", "\t"] = ([], [["x"]]) ∧
      runRows ⟨2026, 10, 12⟩ [["", "  ", "\t"]] [["x"]] 7 =
        runRows ⟨2026, 10, 12⟩ [] [["x"]] 8 :=
  blank_row_invisible ⟨2026, 10, 12⟩ [["x"]] 7 ["", "  ", "\t"] [] (by decide)

/-! ### C8: determinism of the pipeline -/

/-- C8: the validator is a pure function of the input text and the clock:
the embedding threads the duplicate-detection set and the error accumulator
explicitly and touches no other state, so two invocations of
`validate_csv_text` on the same text and the same `today` produce the same
result. -/
theorem validate_csv_text_deterministic (csv_text : String) (today : PyDate) :
    (validateTwice csv_text today).1 = (validateTwice csv_text today).2 := rfl


/-! ### Error-code inventories and membership lemmas -/

theorem mem_ite_singleton {α : Type} {P : Prop} [Decidable P] {x a : α}
    (h : x ∈ (if P then [a] else ([] : List α))) : P ∧ x = a := by
  by_cases hP : P
  · rw [if_pos hP] at h
    exact ⟨hP, by simpa using h⟩
  · rw [if_neg hP] at h
    exact absurd h (List.not_mem_nil _)

theorem mem_ite_nil_singleton {α : Type} {P : Prop} [Decidable P] {x a : α}
    (h : x ∈ (if P then ([] : List α) else [a])) : ¬P ∧ x = a := by
  by_cases hP : P
  · rw [if_pos hP] at h
    exact absurd h (List.not_mem_nil _)
  · rw [if_neg hP] at h
    exact ⟨hP, by simpa using h⟩

/-- The error codes `validate_field` can produce. -/
def fieldErrorCodes : List String :=
  ["MISSING", "DATE_FORMAT", "DATE_RANGE", "VALUE", "PATTERN", "LENGTH",
   "MIN_LENGTH", "MAX_LENGTH"]

/-- The error codes `validate_record_level` can produce. -/
def recordErrorCodes : List String :=
  ["GROUP_RULE", "MISSING", "ENTRY_RULE", "SENTINEL_NOT_ALLOWED", "DATE_FUTURE",
   "DATE_ORDER", "RESULT_RULE"]

/-- The error codes a data row can produce in the pipeline. -/
def dataRowCodes : List String :=
  ["COLUMN_COUNT", "DUPLICATE_ROW"] ++ fieldErrorCodes ++ recordErrorCodes

theorem date_field_errors_codes (f v : String) (today : PyDate) :
    ∀ ce ∈ date_field_errors f v today, ce.1 = "DATE_FORMAT" ∨ ce.1 = "DATE_RANGE" := by
  intro ce hce
  unfold date_field_errors at hce
  by_cases c1 : ((parse_date v).1.isNone && !(parse_date v).2) = true
  · rw [if_pos c1] at hce
    simp only [List.mem_singleton] at hce
    subst hce
    exact Or.inl rfl
  · rw [if_neg c1] at hce
    cases hpd : (parse_date v).1 with
    | none => rw [hpd] at hce; exact absurd hce (List.not_mem_nil _)
    | some dt =>
      rw [hpd] at hce
      rcases List.mem_append.mp hce with h | h
      · obtain ⟨-, rfl⟩ := mem_ite_singleton h
        exact Or.inr rfl
      · by_cases c3 : (f == "DOB") = true
        · rw [if_pos c3] at h
          obtain ⟨-, rfl⟩ := mem_ite_singleton h
          exact Or.inr rfl
        · rw [if_neg c3] at h
          exact absurd h (List.not_mem_nil _)

theorem shape_field_errors_codes (spec : FieldSpec) (v : String) :
    ∀ ce ∈ shape_field_errors spec v,
      ce.1 ∈ ["VALUE", "PATTERN", "LENGTH", "MIN_LENGTH", "MAX_LENGTH"] := by
  intro ce hce
  unfold shape_field_errors at hce
  rcases List.mem_append.mp hce with hce4 | h
  rotate_left
  · cases hl : spec.max_length with
    | none => rw [hl] at h; exact absurd h (List.not_mem_nil _)
    | some n =>
      rw [hl] at h
      obtain ⟨-, rfl⟩ := mem_ite_singleton h
      simp
  rcases List.mem_append.mp hce4 with hce3 | h
  rotate_left
  · cases hl : spec.min_length with
    | none => rw [hl] at h; exact absurd h (List.not_mem_nil _)
    | some n =>
      rw [hl] at h
      obtain ⟨-, rfl⟩ := mem_ite_singleton h
      simp
  rcases List.mem_append.mp hce3 with hce2 | h
  rotate_left
  · cases hl : spec.length with
    | none => rw [hl] at h; exact absurd h (List.not_mem_nil _)
    | some n =>
      rw [hl] at h
      obtain ⟨-, rfl⟩ := mem_ite_singleton h
      simp
  rcases List.mem_append.mp hce2 with h | h
  · cases hav : spec.allowed_values with
    | none => rw [hav] at h; exact absurd h (List.not_mem_nil _)
    | some av =>
      rw [hav] at h
      obtain ⟨-, rfl⟩ := mem_ite_nil_singleton h
      simp
  · cases hp : spec.fieldPattern with
    | none => rw [hp] at h; exact absurd h (List.not_mem_nil _)
    | some pat =>
      rw [hp] at h
      obtain ⟨-, rfl⟩ := mem_ite_nil_singleton h
      simp

theorem validate_field_codes (f v rt : String) (today : PyDate) :
    ∀ ce ∈ validate_field f v rt today, ce.1 ∈ fieldErrorCodes := by
  intro ce hce
  unfold validate_field at hce
  cases hFS : FIELD_SPECS f with
  | none => rw [hFS] at hce; exact absurd hce (List.not_mem_nil _)
  | some spec =>
    rw [hFS] at hce
    have hce : ce ∈
        (if (spec.mandatory && !conditional_mandatory.contains f && pyStrip v == "") = true then
          [("MISSING", "Mandatory field is blank")]
         else if (pyStrip v == "") = true then []
         else if (pyStrip v == "-2" && spec.allow_minus2) = true then []
         else if (spec.type == some "date") = true then date_field_errors f (pyStrip v) today
         else shape_field_errors spec (pyStrip v)) := hce
    by_cases c1 : (spec.mandatory && !conditional_mandatory.contains f && pyStrip v == "") = true
    · rw [if_pos c1] at hce
      simp only [List.mem_singleton] at hce
      subst hce
      decide
    · rw [if_neg c1] at hce
      by_cases c2 : (pyStrip v == "") = true
      · rw [if_pos c2] at hce; exact absurd hce (List.not_mem_nil _)
      · rw [if_neg c2] at hce
        by_cases c3 : (pyStrip v == "-2" && spec.allow_minus2) = true
        · rw [if_pos c3] at hce; exact absurd hce (List.not_mem_nil _)
        · rw [if_neg c3] at hce
          by_cases c4 : (spec.type == some "date") = true
          · rw [if_pos c4] at hce
            rcases date_field_errors_codes f (pyStrip v) today ce hce with h | h <;>
              (rw [h]; decide)
          · rw [if_neg c4] at hce
            have h := shape_field_errors_codes spec (pyStrip v) ce hce
            simp only [List.mem_cons, List.not_mem_nil, or_false] at h
            rcases h with h | h | h | h | h <;> (rw [h]; decide)

theorem mem_ite_left {α : Type} {P : Prop} [Decidable P] {x : α} {l : List α}
    (h : x ∈ (if P then l else ([] : List α))) : P ∧ x ∈ l := by
  by_cases hP : P
  · rw [if_pos hP] at h
    exact ⟨hP, h⟩
  · rw [if_neg hP] at h
    exact absurd h (List.not_mem_nil _)

theorem group_rule_errors_mem (row : String → String) (n : Nat) :
    ∀ e ∈ group_rule_errors row n,
      e.row_number = n ∧ e.error_code = "GROUP_RULE" ∧ e.field = "LearnerIdentifierGroup" := by
  intro e he
  unfold group_rule_errors at he
  obtain ⟨-, rfl⟩ := mem_ite_singleton he
  exact ⟨rfl, rfl, rfl⟩

theorem conditional_missing_error_mem (row : String → String) (n : Nat)
    (rt fname : String) :
    ∀ e ∈ conditional_missing_error row n rt fname,
      e = ⟨n, fname, "MISSING",
        fname ++ " is mandatory for RecordType=" ++ rt ++ ".", row fname⟩ := by
  intro e he
  unfold conditional_missing_error at he
  exact (mem_ite_singleton he).2

theorem conditional_mandatory_errors_mem (row : String → String) (n : Nat) :
    ∀ e ∈ conditional_mandatory_errors row n,
      e.row_number = n ∧ e.error_code = "MISSING" ∧
        e.field ∈ ["FirstEntryDate", "AwardDate", "QualificationGrade"] := by
  intro e he
  unfold conditional_mandatory_errors at he
  obtain ⟨-, he⟩ := mem_ite_left he
  rcases List.mem_append.mp he with hab | h
  · rcases List.mem_append.mp hab with h | h
    · rw [conditional_missing_error_mem _ _ _ _ e h]
      exact ⟨rfl, rfl, by simp⟩
    · rw [conditional_missing_error_mem _ _ _ _ e h]
      exact ⟨rfl, rfl, by simp⟩
  · rw [conditional_missing_error_mem _ _ _ _ e h]
    exact ⟨rfl, rfl, by simp⟩

theorem entry_date_rule_error_mem (row : String → String) (n : Nat) (fname : String) :
    ∀ e ∈ entry_date_rule_error row n fname,
      e = ⟨n, fname, "ENTRY_RULE",
        "For RecordType=Entry, " ++ fname ++ " must be 2999-12-31 or 31/12/2999.",
        pyStrip (row fname)⟩ := by
  intro e he
  unfold entry_date_rule_error at he
  exact (mem_ite_singleton he).2

theorem entry_rule_errors_mem (row : String → String) (n : Nat) :
    ∀ e ∈ entry_rule_errors row n,
      e.row_number = n ∧ e.error_code = "ENTRY_RULE" ∧
        e.field ∈ ["QualificationGrade", "FirstEntryDate", "AwardDate"] := by
  intro e he
  unfold entry_rule_errors at he
  obtain ⟨-, he⟩ := mem_ite_left he
  rcases List.mem_append.mp he with hab | h
  · rcases List.mem_append.mp hab with h | h
    · obtain ⟨-, rfl⟩ := mem_ite_singleton h
      exact ⟨rfl, rfl, by simp⟩
    · rw [entry_date_rule_error_mem _ _ _ e h]
      exact ⟨rfl, rfl, by simp⟩
  · rw [entry_date_rule_error_mem _ _ _ e h]
    exact ⟨rfl, rfl, by simp⟩

theorem result_amendment_errors_mem (row : String → String) (n : Nat) (today : PyDate) :
    ∀ e ∈ result_amendment_errors row n today,
      e.row_number = n ∧
        e.error_code ∈ ["SENTINEL_NOT_ALLOWED", "DATE_FUTURE", "DATE_ORDER", "RESULT_RULE"] ∧
        e.field ∈ ["FirstEntryDate", "AwardDate", "QualificationGrade"] := by
  intro e he
  unfold result_amendment_errors at he
  obtain ⟨-, he⟩ := mem_ite_left he
  rcases List.mem_append.mp he with he6 | h
  rotate_left
  · obtain ⟨-, rfl⟩ := mem_ite_singleton h
    exact ⟨rfl, by simp, by simp⟩
  rcases List.mem_append.mp he6 with he5 | h
  rotate_left
  · have h : e ∈
        (match (parse_date (pyStrip (row "AwardDate"))).1,
               (parse_date (pyStrip (row "RegistrationDate"))).1 with
         | some aw, some reg =>
           if toOrdinal aw < toOrdinal reg then
             [(⟨n, "AwardDate", "DATE_ORDER",
               "AwardDate must be on or after RegistrationDate.",
               pyStrip (row "AwardDate")⟩ : ValidationError)]
           else []
         | _, _ => ([] : List ValidationError)) := h
    cases haw : (parse_date (pyStrip (row "AwardDate"))).1 with
    | none => rw [haw] at h; exact absurd h (List.not_mem_nil _)
    | some aw =>
      rw [haw] at h
      cases hreg : (parse_date (pyStrip (row "RegistrationDate"))).1 with
      | none => rw [hreg] at h; exact absurd h (List.not_mem_nil _)
      | some reg =>
        rw [hreg] at h
        obtain ⟨-, rfl⟩ := mem_ite_singleton h
        exact ⟨rfl, by simp, by simp⟩
  rcases List.mem_append.mp he5 with he4 | h
  rotate_left
  · have h : e ∈
        (match (parse_date (pyStrip (row "AwardDate"))).1,
               (parse_date (pyStrip (row "FirstEntryDate"))).1 with
         | some aw, some fe =>
           if toOrdinal aw < toOrdinal fe then
             [(⟨n, "AwardDate", "DATE_ORDER",
               "AwardDate must be on or after FirstEntryDate.",
               pyStrip (row "AwardDate")⟩ : ValidationError)]
           else []
         | _, _ => ([] : List ValidationError)) := h
    cases haw : (parse_date (pyStrip (row "AwardDate"))).1 with
    | none => rw [haw] at h; exact absurd h (List.not_mem_nil _)
    | some aw =>
      rw [haw] at h
      cases hfe : (parse_date (pyStrip (row "FirstEntryDate"))).1 with
      | none => rw [hfe] at h; exact absurd h (List.not_mem_nil _)
      | some fe =>
        rw [hfe] at h
        obtain ⟨-, rfl⟩ := mem_ite_singleton h
        exact ⟨rfl, by simp, by simp⟩
  rcases List.mem_append.mp he4 with he3 | h
  rotate_left
  · have h : e ∈
        (match (parse_date (pyStrip (row "AwardDate"))).1 with
         | some aw =>
           if toOrdinal today < toOrdinal aw then
             [(⟨n, "AwardDate", "DATE_FUTURE",
               "AwardDate must not be in the future for Result/Amendment.",
               pyStrip (row "AwardDate")⟩ : ValidationError)]
           else []
         | none => ([] : List ValidationError)) := h
    cases haw : (parse_date (pyStrip (row "AwardDate"))).1 with
    | none => rw [haw] at h; exact absurd h (List.not_mem_nil _)
    | some aw =>
      rw [haw] at h
      obtain ⟨-, rfl⟩ := mem_ite_singleton h
      exact ⟨rfl, by simp, by simp⟩
  rcases List.mem_append.mp he3 with he2 | h
  rotate_left
  · have h : e ∈
        (match (parse_date (pyStrip (row "FirstEntryDate"))).1 with
         | some fe =>
           if toOrdinal today < toOrdinal fe then
             [(⟨n, "FirstEntryDate", "DATE_FUTURE",
               "FirstEntryDate must not be in the future for Result/Amendment.",
               pyStrip (row "FirstEntryDate")⟩ : ValidationError)]
           else []
         | none => ([] : List ValidationError)) := h
    cases hfe : (parse_date (pyStrip (row "FirstEntryDate"))).1 with
    | none => rw [hfe] at h; exact absurd h (List.not_mem_nil _)
    | some fe =>
      rw [hfe] at h
      obtain ⟨-, rfl⟩ := mem_ite_singleton h
      exact ⟨rfl, by simp, by simp⟩
  rcases List.mem_append.mp he2 with h | h
  · obtain ⟨-, rfl⟩ := mem_ite_singleton h
    exact ⟨rfl, by simp, by simp⟩
  · obtain ⟨-, rfl⟩ := mem_ite_singleton h
    exact ⟨rfl, by simp, by simp⟩

theorem validate_record_level_mem (row : String → String) (n : Nat) (today : PyDate) :
    ∀ e ∈ validate_record_level row n today,
      e.row_number = n ∧ e.error_code ∈ recordErrorCodes := by
  intro e he
  unfold validate_record_level at he
  rcases List.mem_append.mp he with he3 | h
  rotate_left
  · obtain ⟨h1, h2, -⟩ := result_amendment_errors_mem row n today e h
    refine ⟨h1, ?_⟩
    simp only [List.mem_cons, List.not_mem_nil, or_false] at h2
    rcases h2 with h2 | h2 | h2 | h2 <;> (rw [h2]; decide)
  rcases List.mem_append.mp he3 with he2 | h
  rotate_left
  · obtain ⟨h1, h2, -⟩ := entry_rule_errors_mem row n e h
    exact ⟨h1, by rw [h2]; decide⟩
  rcases List.mem_append.mp he2 with h | h
  · obtain ⟨h1, h2, -⟩ := group_rule_errors_mem row n e h
    exact ⟨h1, by rw [h2]; decide⟩
  · obtain ⟨h1, h2, -⟩ := conditional_mandatory_errors_mem row n e h
    exact ⟨h1, by rw [h2]; decide⟩

theorem fieldLoop_mem (m : String → String) (idx : Nat) (rt : String) (today : PyDate) :
    ∀ e ∈ fieldLoop m idx rt today,
      e.row_number = idx ∧ e.value = m e.field ∧
        (e.error_code, e.message) ∈ validate_field e.field (m e.field) rt today := by
  intro e he
  unfold fieldLoop at he
  simp only [List.mem_flatMap, List.mem_filterMap] at he
  obtain ⟨fn, -, ce, hce, hfil⟩ := he
  by_cases hex : is_permitted_exclusion fn (m fn) ce.1 = true
  · rw [if_pos hex] at hfil
    exact absurd hfil (by simp)
  · rw [if_neg hex] at hfil
    obtain rfl := Option.some.inj hfil
    refine ⟨rfl, rfl, ?_⟩
    show (ce.1, ce.2) ∈ _
    rw [Prod.mk.eta]
    exact hce

theorem fieldCodes_sub : ∀ c ∈ fieldErrorCodes, c ∈ dataRowCodes := by
  intro c hc
  simp only [fieldErrorCodes, List.mem_cons, List.not_mem_nil, or_false] at hc
  rcases hc with h | h | h | h | h | h | h | h <;> (rw [h]; decide)

theorem recordCodes_sub : ∀ c ∈ recordErrorCodes, c ∈ dataRowCodes := by
  intro c hc
  simp only [recordErrorCodes, List.mem_cons, List.not_mem_nil, or_false] at hc
  rcases hc with h | h | h | h | h | h | h <;> (rw [h]; decide)

theorem processRow_mem (today : PyDate) (seen : List (List String)) (idx : Nat)
    (row : List String) :
    ∀ e ∈ (processRow today seen idx row).1,
      e.row_number = idx ∧
        ((e.error_code ∈ ["COLUMN_COUNT", "DUPLICATE_ROW"] ∧ e.field = "*ROW*") ∨
         (e.value = rowToMap (padTo34 row) e.field ∧
          (e.error_code, e.message) ∈
            validate_field e.field (rowToMap (padTo34 row) e.field)
              (pyStrip (rowToMap (padTo34 row) "RecordType")) today) ∨
         e ∈ validate_record_level (rowToMap (padTo34 row)) idx today) := by
  intro e he
  unfold processRow at he
  by_cases hblank : (row.all fun cell => pyStrip cell == "") = true
  · rw [if_pos hblank] at he
    exact absurd he (List.not_mem_nil _)
  · rw [if_neg hblank] at he
    rcases List.mem_append.mp he with he3 | h
    rotate_left
    · obtain ⟨h1, -⟩ := validate_record_level_mem (rowToMap (padTo34 row)) idx today e h
      exact ⟨h1, Or.inr (Or.inr h)⟩
    rcases List.mem_append.mp he3 with he2 | h
    rotate_left
    · obtain ⟨h1, h2, h3⟩ := fieldLoop_mem (rowToMap (padTo34 row)) idx
        (pyStrip (rowToMap (padTo34 row) "RecordType")) today e h
      exact ⟨h1, Or.inr (Or.inl ⟨h2, h3⟩)⟩
    rcases List.mem_append.mp he2 with h | h
    · obtain ⟨-, rfl⟩ := mem_ite_singleton h
      exact ⟨rfl, Or.inl ⟨by simp, rfl⟩⟩
    · obtain ⟨-, rfl⟩ := mem_ite_singleton h
      exact ⟨rfl, Or.inl ⟨by simp, rfl⟩⟩

/-- Shape-error codes that checks 5-9 of `validate_field` can raise. -/
def bannedMinus2Codes : List String :=
  ["VALUE", "PATTERN", "LENGTH", "MIN_LENGTH", "MAX_LENGTH"]

theorem runRows_mem (today : PyDate) :
    ∀ (rows seen : List (List String)) (idx : Nat),
      ∀ e ∈ runRows today rows seen idx,
        idx < e.row_number ∧ e.error_code ∈ dataRowCodes ∧
          (e.error_code ∈ bannedMinus2Codes →
            ∃ rt, (e.error_code, e.message) ∈ validate_field e.field e.value rt today) := by
  intro rows
  induction rows with
  | nil => intro seen idx e he; exact absurd he (List.not_mem_nil _)
  | cons row rest ih =>
    intro seen idx e he
    unfold runRows at he
    rcases List.mem_append.mp he with h | h
    · obtain ⟨h1, h2⟩ := processRow_mem today seen (idx + 1) row e h
      refine ⟨by rw [h1]; exact Nat.lt_succ_self idx, ?_, ?_⟩
      · rcases h2 with ⟨hc, -⟩ | ⟨-, hvf⟩ | hrec
        · simp only [List.mem_cons, List.not_mem_nil, or_false] at hc
          rcases hc with hc | hc <;> (rw [hc]; decide)
        · exact fieldCodes_sub _ (validate_field_codes _ _ _ _ _ hvf)
        · exact recordCodes_sub _ (validate_record_level_mem _ _ _ e hrec).2
      · intro hban
        rcases h2 with ⟨hc, -⟩ | ⟨hval, hvf⟩ | hrec
        · simp only [List.mem_cons, List.not_mem_nil, or_false] at hc
          rcases hc with hc | hc <;> (rw [hc] at hban; exact absurd hban (by decide))
        · exact ⟨pyStrip (rowToMap (padTo34 row) "RecordType"), by rw [hval]; exact hvf⟩
        · have h7 := (validate_record_level_mem _ _ _ e hrec).2
          simp only [recordErrorCodes, List.mem_cons, List.not_mem_nil, or_false] at h7
          rcases h7 with h7 | h7 | h7 | h7 | h7 | h7 | h7 <;>
            (rw [h7] at hban; exact absurd hban (by decide))
    · obtain ⟨h1, h2⟩ := ih _ (idx + 1) e h
      exact ⟨Nat.lt_of_succ_lt h1, h2⟩

/-! ### C1: `-2` on the twelve permitted fields -/

theorem validate_field_minus2 (f v rt : String) (today : PyDate)
    (hf : f ∈ EXCLUSION_MINUS2_FIELDS) (hv : pyStrip v = "-2") :
    validate_field f v rt today = [] := by
  simp only [EXCLUSION_MINUS2_FIELDS, List.mem_cons, List.not_mem_nil, or_false] at hf
  rcases hf with rfl | rfl | rfl | rfl | rfl | rfl | rfl | rfl | rfl | rfl | rfl | rfl <;>
    (unfold validate_field; rw [hv]; rfl)

/-- C1: on each of the 12 `-2`-permitted fields, a value whose trimmed form
is exactly `-2` never contributes a `VALUE`, `PATTERN`, `LENGTH`,
`MIN_LENGTH` or `MAX_LENGTH` error for that field to the pipeline's output:
the field validator returns before the pattern, length and allowed-value
checks run (`validate_field_minus2`), and no other part of the pipeline
raises these codes. -/
theorem minus2_exempt_from_shape_errors (rows : List (List String)) (today : PyDate)
    (f : String) (hf : f ∈ EXCLUSION_MINUS2_FIELDS) :
    ∀ e ∈ validate_csv_stream rows today, e.field = f → pyStrip e.value = "-2" →
      e.error_code ∉ bannedMinus2Codes := by
  intro e he hfield hval hban
  cases rows with
  | nil =>
    simp only [validate_csv_stream, List.mem_singleton] at he
    subst he
    exact absurd hban (by decide)
  | cons header rest =>
    unfold validate_csv_stream at he
    rcases List.mem_append.mp he with h | h
    · obtain ⟨-, rfl⟩ := mem_ite_singleton h
      exact absurd hban (by simp [headerMismatchError, bannedMinus2Codes])
    · obtain ⟨-, -, h3⟩ := runRows_mem today rest [] 1 e h
      obtain ⟨rt, hmem⟩ := h3 hban
      rw [hfield, validate_field_minus2 f e.value rt today hf hval] at hmem
      exact absurd hmem (List.not_mem_nil _)

/-- C1 (witness): the theorem applied to a submission whose data row is a
Result record with QualificationGrade `-2`; that row does produce a
`RESULT_RULE` error carrying the value `-2` on QualificationGrade, and the
instantiated theorem applies to it. -/
theorem minus2_exempt_witness :
    "QualificationGrade" ∈ EXCLUSION_MINUS2_FIELDS ∧
    (⟨2, "QualificationGrade", "RESULT_RULE",
       "For Result/Amendment, QualificationGrade cannot be " ++ pyQuote ++ "-2" ++ pyQuote ++ ".",
       "-2"⟩ : ValidationError) ∈
      validate_csv_stream
        [EXPECTED_COLUMNS,
         ["Result", "", "", "", "", "", "", "", "", "",
          "", "", "", "", "", "", "", "", "", "",
          "", "", "", "", "", "", "", "", "", "",
          "", "-2", "", ""]] ⟨2026, 10, 12⟩ ∧
    (⟨2, "QualificationGrade", "RESULT_RULE",
       "For Result/Amendment, QualificationGrade cannot be " ++ pyQuote ++ "-2" ++ pyQuote ++ ".",
       "-2"⟩ : ValidationError).error_code ∉ bannedMinus2Codes := by
  refine ⟨by decide, by decide, ?_⟩
  exact minus2_exempt_from_shape_errors
    [EXPECTED_COLUMNS,
     ["Result", "", "", "", "", "", "", "", "", "",
      "", "", "", "", "", "", "", "", "", "",
      "", "", "", "", "", "", "", "", "", "",
      "", "-2", "", ""]] ⟨2026, 10, 12⟩ "QualificationGrade" (by decide)
    _ (by decide) rfl (by decide)

/-! ### C6: row-number invariant and header-mismatch behaviour -/

theorem dataRowCodes_ne_header : ∀ c ∈ dataRowCodes, c = "HEADER_MISMATCH" → False := by
  intro c hc h
  rw [h] at hc
  exact absurd hc (by decide)

theorem dataRowCodes_ne_empty : ∀ c ∈ dataRowCodes, c = "EMPTY" → False := by
  intro c hc h
  rw [h] at hc
  exact absurd hc (by decide)

/-- C6: every error of the pipeline either sits at row 1 with the synthetic
field `*FILE*` or `*HEADER*`, or has row number at least 2; and when the
normalized header does not match the 34-column schema the output is exactly
one `HEADER_MISMATCH` error at row 1 field `*HEADER*` followed by the
ordinary validation of all data rows. -/
theorem row_numbers_and_header_mismatch (rows : List (List String)) (today : PyDate) :
    (∀ e ∈ validate_csv_stream rows today,
      (e.row_number = 1 ∧ (e.field = "*FILE*" ∨ e.field = "*HEADER*")) ∨
        2 ≤ e.row_number) ∧
    (∀ header rest, rows = header :: rest →
      ¬(header.map stripHeaderCell = EXPECTED_COLUMNS) →
      validate_csv_stream rows today =
        headerMismatchError (header.map stripHeaderCell) :: runRows today rest [] 1 ∧
      (validate_csv_stream rows today).countP
        (fun e => e.error_code == "HEADER_MISMATCH") = 1) := by
  constructor
  · intro e he
    cases rows with
    | nil =>
      simp only [validate_csv_stream, List.mem_singleton] at he
      subst he
      exact Or.inl ⟨rfl, Or.inl rfl⟩
    | cons header rest =>
      unfold validate_csv_stream at he
      rcases List.mem_append.mp he with h | h
      · obtain ⟨-, rfl⟩ := mem_ite_singleton h
        exact Or.inl ⟨rfl, Or.inr rfl⟩
      · obtain ⟨h1, -, -⟩ := runRows_mem today rest [] 1 e h
        exact Or.inr h1
  · rintro header rest rfl hmm
    have hcond : (!(header.map stripHeaderCell == EXPECTED_COLUMNS)) = true := by
      simpa using hmm
    have hstream : validate_csv_stream (header :: rest) today =
        headerMismatchError (header.map stripHeaderCell) :: runRows today rest [] 1 := by
      show (if (!(header.map stripHeaderCell == EXPECTED_COLUMNS)) = true then
          [headerMismatchError (header.map stripHeaderCell)] else []) ++
            runRows today rest [] 1 = _
      rw [if_pos hcond]
      rfl
    refine ⟨hstream, ?_⟩
    rw [hstream]
    rw [List.countP_cons]
    have hz : (runRows today rest [] 1).countP (fun e => e.error_code == "HEADER_MISMATCH") = 0 := by
      rw [List.countP_eq_zero]
      intro e he
      obtain ⟨-, hcode, -⟩ := runRows_mem today rest [] 1 e he
      simp only [beq_iff_eq]
      exact fun h => dataRowCodes_ne_header _ hcode h
    rw [hz]
    simp [headerMismatchError]

set_option maxRecDepth 4096 in
/-- C6 (witness): the theorem applied to a one-row input whose header does
not match the schema. -/
theorem row_numbers_and_header_mismatch_witness :
    validate_csv_stream [["bad"]] ⟨2026, 10, 12⟩ =
      headerMismatchError ["bad"] :: runRows ⟨2026, 10, 12⟩ [] [] 1 ∧
    (validate_csv_stream [["bad"]] ⟨2026, 10, 12⟩).countP
      (fun e => e.error_code == "HEADER_MISMATCH") = 1 ∧
    ((headerMismatchError ["bad"]).row_number = 1 ∧
      ((headerMismatchError ["bad"]).field = "*FILE*" ∨
       (headerMismatchError ["bad"]).field = "*HEADER*") ∨
     2 ≤ (headerMismatchError ["bad"]).row_number) := by
  obtain ⟨h1, h2⟩ := row_numbers_and_header_mismatch [["bad"]] ⟨2026, 10, 12⟩
  obtain ⟨h3, h4⟩ := h2 ["bad"] [] rfl (by decide)
  refine ⟨h3, h4, ?_⟩
  have h5 := h1 (headerMismatchError ["bad"]) (by decide)
  rcases h5 with ⟨ha, hb⟩ | hc
  · exact Or.inl ⟨ha, hb⟩
  · exact Or.inr hc

/-! ### C3: Entry records with QualificationGrade ≠ `-2` -/

theorem fieldErrorCodes_ne_entry_rule : ∀ c ∈ fieldErrorCodes, c = "ENTRY_RULE" → False := by
  intro c hc h
  rw [h] at hc
  exact absurd hc (by decide)

theorem rowToMap_blank (cells : List String) (hb : ∀ c ∈ cells, pyStrip c = "")
    (f : String) : pyStrip (rowToMap cells f) = "" := by
  unfold rowToMap
  cases hfind : (EXPECTED_COLUMNS.zip cells).find? (fun p => p.1 == f) with
  | none => rfl
  | some p => exact hb p.2 (List.of_mem_zip (List.mem_of_find?_eq_some hfind)).2

theorem padTo34_blank (row : List String) (hb : ∀ c ∈ row, pyStrip c = "") :
    ∀ c ∈ padTo34 row, pyStrip c = "" := by
  intro c hc
  unfold padTo34 at hc
  by_cases h1 : row.length < EXPECTED_COLUMNS.length
  · rw [if_pos h1] at hc
    rcases List.mem_append.mp hc with h | h
    · exact hb c h
    · rw [List.eq_of_mem_replicate h]
      rfl
  · rw [if_neg h1] at hc
    by_cases h2 : row.length > EXPECTED_COLUMNS.length
    · rw [if_pos h2] at hc
      exact hb c ((List.take_sublist _ _).subset hc)
    · rw [if_neg h2] at hc
      exact hb c hc

theorem entry_record_count (row : String → String) (n : Nat) (today : PyDate)
    (hrt : pyStrip (row "RecordType") = "Entry")
    (hqg : pyStrip (row "QualificationGrade") ≠ "-2") :
    (validate_record_level row n today).countP
        (fun e => e.error_code == "ENTRY_RULE" && e.field == "QualificationGrade") = 1 ∧
    ∀ e ∈ validate_record_level row n today,
      e.error_code = "ENTRY_RULE" → e.field = "QualificationGrade" →
        e.value = pyStrip (row "QualificationGrade") := by
  have hcond : conditional_mandatory_errors row n = [] := by
    unfold conditional_mandatory_errors
    rw [hrt]
    rfl
  have hres : result_amendment_errors row n today = [] := by
    unfold result_amendment_errors
    rw [hrt]
    rfl
  have hqgf : (pyStrip (row "QualificationGrade") == "-2") = false := by
    simpa using hqg
  have hentry : entry_rule_errors row n =
      (⟨n, "QualificationGrade", "ENTRY_RULE",
        "For RecordType=Entry, QualificationGrade must be " ++ pyQuote ++ "-2" ++ pyQuote ++ ".",
        pyStrip (row "QualificationGrade")⟩ : ValidationError) ::
        (entry_date_rule_error row n "FirstEntryDate" ++
         entry_date_rule_error row n "AwardDate") := by
    unfold entry_rule_errors
    rw [hrt]
    rw [if_pos (show (("Entry" == "Entry") = true) from rfl)]
    show (if (!(pyStrip (row "QualificationGrade") == "-2")) = true then _ else []) ++ _ ++ _ = _
    rw [hqgf]
    rfl
  have hgroupz : (group_rule_errors row n).countP
      (fun e => e.error_code == "ENTRY_RULE" && e.field == "QualificationGrade") = 0 := by
    rw [List.countP_eq_zero]
    intro e he
    obtain ⟨-, h2, -⟩ := group_rule_errors_mem row n e he
    simp [h2]
  have hfez : (entry_date_rule_error row n "FirstEntryDate").countP
      (fun e => e.error_code == "ENTRY_RULE" && e.field == "QualificationGrade") = 0 := by
    rw [List.countP_eq_zero]
    intro e he
    rw [entry_date_rule_error_mem row n "FirstEntryDate" e he]
    simp
  have hawz : (entry_date_rule_error row n "AwardDate").countP
      (fun e => e.error_code == "ENTRY_RULE" && e.field == "QualificationGrade") = 0 := by
    rw [List.countP_eq_zero]
    intro e he
    rw [entry_date_rule_error_mem row n "AwardDate" e he]
    simp
  constructor
  · unfold validate_record_level
    rw [List.countP_append, List.countP_append, List.countP_append]
    rw [hcond, hres, hentry, hgroupz]
    rw [List.countP_cons, List.countP_append, hfez, hawz]
    simp
  · intro e he hcode hfield
    unfold validate_record_level at he
    rw [hcond, hres, hentry] at he
    simp only [List.append_nil, List.mem_append, List.mem_cons] at he
    rcases he with hg | (rfl | hd)
    · obtain ⟨-, h2, -⟩ := group_rule_errors_mem row n e hg
      rw [h2] at hcode
      exact absurd hcode (by decide)
    · rfl
    · rcases hd with h | h
      · rw [entry_date_rule_error_mem row n "FirstEntryDate" e h] at hfield
        exact absurd hfield (by simp)
      · rw [entry_date_rule_error_mem row n "AwardDate" e h] at hfield
        exact absurd hfield (by simp)

/-- C3: a data row whose trimmed RecordType is `Entry` and whose trimmed
QualificationGrade is not the literal `-2` (and whose QualificationGrade is
otherwise well-formed under its field spec) produces exactly one error with
code `ENTRY_RULE` and field `QualificationGrade`, and that error carries the
offending (trimmed) QualificationGrade value. -/
theorem entry_rule_exactly_one (cells : List String) (seen : List (List String))
    (idx : Nat) (today : PyDate)
    (hrt : pyStrip (rowToMap (padTo34 cells) "RecordType") = "Entry")
    (hqg : pyStrip (rowToMap (padTo34 cells) "QualificationGrade") ≠ "-2")
    (_hwf : validate_field "QualificationGrade"
        (rowToMap (padTo34 cells) "QualificationGrade")
        (pyStrip (rowToMap (padTo34 cells) "RecordType")) today = []) :
    (processRow today seen idx cells).1.countP
        (fun e => e.error_code == "ENTRY_RULE" && e.field == "QualificationGrade") = 1 ∧
    ∀ e ∈ (processRow today seen idx cells).1,
      e.error_code = "ENTRY_RULE" → e.field = "QualificationGrade" →
        e.value = pyStrip (rowToMap (padTo34 cells) "QualificationGrade") := by
  have hnb : ¬((cells.all fun cell => pyStrip cell == "") = true) := by
    intro hall
    rw [List.all_eq_true] at hall
    have hb : ∀ c ∈ cells, pyStrip c = "" := fun c hc => by simpa using hall c hc
    have := rowToMap_blank (padTo34 cells) (padTo34_blank cells hb) "RecordType"
    rw [this] at hrt
    exact absurd hrt (by decide)
  have hsplit : (processRow today seen idx cells).1 =
      (if !(cells.length == EXPECTED_COLUMNS.length) then
        [⟨idx, "*ROW*", "COLUMN_COUNT",
          "Row must contain " ++ toString EXPECTED_COLUMNS.length ++ " columns, found " ++
            toString cells.length ++ ".", ""⟩]
       else []) ++
      (if seen.contains (padTo34 cells) then
        [⟨idx, "*ROW*", "DUPLICATE_ROW", "Duplicate row within submission.", ""⟩]
       else []) ++
      fieldLoop (rowToMap (padTo34 cells)) idx
        (pyStrip (rowToMap (padTo34 cells) "RecordType")) today ++
      validate_record_level (rowToMap (padTo34 cells)) idx today := by
    unfold processRow
    rw [if_neg hnb]
  have hcolz : ∀ (l : List ValidationError),
      (∀ e ∈ l, e.field = "*ROW*") →
      l.countP (fun e => e.error_code == "ENTRY_RULE" && e.field == "QualificationGrade") = 0 := by
    intro l hl
    rw [List.countP_eq_zero]
    intro e he
    rw [Bool.and_eq_true, beq_iff_eq, beq_iff_eq]
    rintro ⟨-, h2⟩
    rw [hl e he] at h2
    exact absurd h2 (by decide)
  have hflz : (fieldLoop (rowToMap (padTo34 cells)) idx
      (pyStrip (rowToMap (padTo34 cells) "RecordType")) today).countP
      (fun e => e.error_code == "ENTRY_RULE" && e.field == "QualificationGrade") = 0 := by
    rw [List.countP_eq_zero]
    intro e he
    obtain ⟨-, -, h3⟩ := fieldLoop_mem _ _ _ _ e he
    have h4 := validate_field_codes _ _ _ _ _ h3
    rw [Bool.and_eq_true, beq_iff_eq, beq_iff_eq]
    rintro ⟨h5, -⟩
    exact fieldErrorCodes_ne_entry_rule _ h4 h5
  obtain ⟨hcount, hval⟩ := entry_record_count (rowToMap (padTo34 cells)) idx today hrt hqg
  constructor
  · rw [hsplit]
    rw [List.countP_append, List.countP_append, List.countP_append]
    rw [hflz, hcount]
    have h1 := hcolz (if !(cells.length == EXPECTED_COLUMNS.length) then
        [⟨idx, "*ROW*", "COLUMN_COUNT",
          "Row must contain " ++ toString EXPECTED_COLUMNS.length ++ " columns, found " ++
            toString cells.length ++ ".", ""⟩] else [])
      (by intro e he; exact ((mem_ite_singleton he).2 ▸ rfl))
    have h2 := hcolz (if seen.contains (padTo34 cells) then
        [⟨idx, "*ROW*", "DUPLICATE_ROW", "Duplicate row within submission.", ""⟩] else [])
      (by intro e he; exact ((mem_ite_singleton he).2 ▸ rfl))
    rw [h1, h2]
  · intro e he hcode hfield
    rw [hsplit] at he
    rcases List.mem_append.mp he with he3 | h
    rotate_left
    · exact hval e h hcode hfield
    rcases List.mem_append.mp he3 with he2 | h
    rotate_left
    · obtain ⟨-, -, h3⟩ := fieldLoop_mem _ _ _ _ e h
      have h4 := validate_field_codes _ _ _ _ _ h3
      exact absurd hcode fun h5 => fieldErrorCodes_ne_entry_rule _ h4 h5
    rcases List.mem_append.mp he2 with h | h
    · obtain ⟨-, rfl⟩ := mem_ite_singleton h
      exact absurd hfield (by simp)
    · obtain ⟨-, rfl⟩ := mem_ite_singleton h
      exact absurd hfield (by simp)

set_option maxRecDepth 4096 in
/-- C3 (witness): the theorem applied to a concrete Entry row whose
QualificationGrade is `ABC`. -/
theorem entry_rule_exactly_one_witness :
    (processRow ⟨2026, 10, 12⟩ [] 2
        ["Entry", "", "", "", "", "", "", "", "", "",
         "", "", "", "", "", "", "", "", "", "",
         "", "", "", "", "", "", "", "", "", "",
         "", "ABC", "", ""]).1.countP
        (fun e => e.error_code == "ENTRY_RULE" && e.field == "QualificationGrade") = 1 ∧
    ∀ e ∈ (processRow ⟨2026, 10, 12⟩ [] 2
        ["Entry", "", "", "", "", "", "", "", "", "",
         "", "", "", "", "", "", "", "", "", "",
         "", "", "", "", "", "", "", "", "", "",
         "", "ABC", "", ""]).1,
      e.error_code = "ENTRY_RULE" → e.field = "QualificationGrade" →
        e.value = pyStrip (rowToMap (padTo34
          ["Entry", "", "", "", "", "", "", "", "", "",
           "", "", "", "", "", "", "", "", "", "",
           "", "", "", "", "", "", "", "", "", "",
           "", "ABC", "", ""]) "QualificationGrade") :=
  entry_rule_exactly_one
    ["Entry", "", "", "", "", "", "", "", "", "",
     "", "", "", "", "", "", "", "", "", "",
     "", "", "", "", "", "", "", "", "", "",
     "", "ABC", "", ""] [] 2 ⟨2026, 10, 12⟩ (by decide) (by decide) (by decide)

/-! ### C4: AwardDate strictly before FirstEntryDate on Result/Amendment -/

theorem processRow_eq_of_nonblank (today : PyDate) (seen : List (List String))
    (idx : Nat) (cells : List String)
    (hnb : ¬((cells.all fun cell => pyStrip cell == "") = true)) :
    (processRow today seen idx cells).1 =
      (if !(cells.length == EXPECTED_COLUMNS.length) then
        [⟨idx, "*ROW*", "COLUMN_COUNT",
          "Row must contain " ++ toString EXPECTED_COLUMNS.length ++ " columns, found " ++
            toString cells.length ++ ".", ""⟩]
       else []) ++
      (if seen.contains (padTo34 cells) then
        [⟨idx, "*ROW*", "DUPLICATE_ROW", "Duplicate row within submission.", ""⟩]
       else []) ++
      fieldLoop (rowToMap (padTo34 cells)) idx
        (pyStrip (rowToMap (padTo34 cells) "RecordType")) today ++
      validate_record_level (rowToMap (padTo34 cells)) idx today := by
  unfold processRow
  rw [if_neg hnb]

theorem date_order_record (row : String → String) (n : Nat) (today : PyDate)
    (aw fe : PyDate)
    (hrt : pyStrip (row "RecordType") = "Result" ∨ pyStrip (row "RecordType") = "Amendment")
    (haw : parse_date (pyStrip (row "AwardDate")) = (some aw, false))
    (hfe : parse_date (pyStrip (row "FirstEntryDate")) = (some fe, false))
    (hlt : toOrdinal aw < toOrdinal fe) :
    (⟨n, "AwardDate", "DATE_ORDER", "AwardDate must be on or after FirstEntryDate.",
      pyStrip (row "AwardDate")⟩ : ValidationError) ∈ validate_record_level row n today := by
  unfold validate_record_level
  refine List.mem_append.mpr (Or.inr ?_)
  unfold result_amendment_errors
  have hcondT : ((pyStrip (row "RecordType") == "Result" ||
      pyStrip (row "RecordType") == "Amendment")) = true := by
    rcases hrt with h | h <;> simp [h]
  rw [if_pos hcondT]
  have hb5 : (⟨n, "AwardDate", "DATE_ORDER", "AwardDate must be on or after FirstEntryDate.",
      pyStrip (row "AwardDate")⟩ : ValidationError) ∈
      (match (parse_date (pyStrip (row "AwardDate"))).1,
             (parse_date (pyStrip (row "FirstEntryDate"))).1 with
       | some aw2, some fe2 =>
         if toOrdinal aw2 < toOrdinal fe2 then
           [(⟨n, "AwardDate", "DATE_ORDER", "AwardDate must be on or after FirstEntryDate.",
             pyStrip (row "AwardDate")⟩ : ValidationError)]
         else []
       | _, _ => []) := by
    rw [show (parse_date (pyStrip (row "AwardDate"))).1 = some aw by rw [haw]]
    rw [show (parse_date (pyStrip (row "FirstEntryDate"))).1 = some fe by rw [hfe]]
    simp [hlt]
  exact List.mem_append.mpr (Or.inl (List.mem_append.mpr (Or.inl
    (List.mem_append.mpr (Or.inr hb5)))))

/-- C4: on a Result or Amendment row where both AwardDate and FirstEntryDate
parse as real (non-sentinel) calendar dates and AwardDate is strictly before
FirstEntryDate, the row's validation output contains a `DATE_ORDER` error on
field AwardDate carrying the AwardDate value. -/
theorem date_order_on_award (cells : List String) (seen : List (List String))
    (idx : Nat) (today : PyDate) (aw fe : PyDate)
    (hrt : pyStrip (rowToMap (padTo34 cells) "RecordType") = "Result" ∨
           pyStrip (rowToMap (padTo34 cells) "RecordType") = "Amendment")
    (haw : parse_date (pyStrip (rowToMap (padTo34 cells) "AwardDate")) = (some aw, false))
    (hfe : parse_date (pyStrip (rowToMap (padTo34 cells) "FirstEntryDate")) = (some fe, false))
    (hlt : toOrdinal aw < toOrdinal fe) :
    ∃ e ∈ (processRow today seen idx cells).1,
      e.error_code = "DATE_ORDER" ∧ e.field = "AwardDate" ∧
        e.value = pyStrip (rowToMap (padTo34 cells) "AwardDate") := by
  have hnb : ¬((cells.all fun cell => pyStrip cell == "") = true) := by
    intro hall
    rw [List.all_eq_true] at hall
    have hb : ∀ c ∈ cells, pyStrip c = "" := fun c hc => by simpa using hall c hc
    have hz := rowToMap_blank (padTo34 cells) (padTo34_blank cells hb) "RecordType"
    rcases hrt with h | h <;> (rw [hz] at h; exact absurd h (by decide))
  rw [processRow_eq_of_nonblank today seen idx cells hnb]
  refine ⟨⟨idx, "AwardDate", "DATE_ORDER", "AwardDate must be on or after FirstEntryDate.",
    pyStrip (rowToMap (padTo34 cells) "AwardDate")⟩, ?_, rfl, rfl, rfl⟩
  exact List.mem_append.mpr (Or.inr
    (date_order_record (rowToMap (padTo34 cells)) idx today aw fe hrt haw hfe hlt))

set_option maxRecDepth 4096 in
/-- C4 (witness): the theorem applied to a concrete Result row with
AwardDate 2020-01-01 strictly before FirstEntryDate 2021-01-01. -/
theorem date_order_on_award_witness :
    ∃ e ∈ (processRow ⟨2026, 10, 12⟩ [] 2
        ["Result", "", "", "", "", "", "", "", "", "",
         "", "", "", "", "", "", "", "", "", "",
         "", "", "", "", "", "", "", "", "", "2021-01-01",
         "2020-01-01", "x", "", ""]).1,
      e.error_code = "DATE_ORDER" ∧ e.field = "AwardDate" ∧
        e.value = pyStrip (rowToMap (padTo34
          ["Result", "", "", "", "", "", "", "", "", "",
           "", "", "", "", "", "", "", "", "", "",
           "", "", "", "", "", "", "", "", "", "2021-01-01",
           "2020-01-01", "x", "", ""]) "AwardDate") :=
  date_order_on_award
    ["Result", "", "", "", "", "", "", "", "", "",
     "", "", "", "", "", "", "", "", "", "",
     "", "", "", "", "", "", "", "", "", "2021-01-01",
     "2020-01-01", "x", "", ""] [] 2 ⟨2026, 10, 12⟩ ⟨2020, 1, 1⟩ ⟨2021, 1, 1⟩
    (Or.inl (by decide)) (by decide) (by decide) (by decide)

/-! ### C7: the DOB age window -/

theorem date_field_errors_of_parsed (f v : String) (today d : PyDate)
    (hp : parse_date v = (some d, false)) :
    date_field_errors f v today =
      (if toOrdinal d < toOrdinal date1900 then
        [("DATE_RANGE", "Date " ++ pyRepr v ++ " must be on or after 1900-01-01")]
       else []) ++
      (if f == "DOB" then
        (if 4 * ((toOrdinal today : Int) - (toOrdinal d : Int)) < 7305 ||
            4 * ((toOrdinal today : Int) - (toOrdinal d : Int)) > 116880 then
           [("DATE_RANGE", "Age from DOB " ++ pyRepr v ++ " must be between 5 and 80 years")]
         else [])
       else []) := by
  unfold date_field_errors
  rw [hp]
  rfl

theorem dob_age_range_of_1900 (v rt : String) (today d : PyDate)
    (hp : parse_date (pyStrip v) = (some d, false))
    (h1900 : toOrdinal date1900 ≤ toOrdinal d) :
    ((validate_field "DOB" v rt today).any (fun ce => ce.1 == "DATE_RANGE") = true ↔
      (4 * ((toOrdinal today : Int) - (toOrdinal d : Int)) < 7305 ∨
       4 * ((toOrdinal today : Int) - (toOrdinal d : Int)) > 116880)) := by
  have hnbB : (pyStrip v == "") = false := by
    rw [beq_eq_false_iff_ne]
    intro h
    rw [h] at hp
    have h2 : ((none : Option PyDate), false) = ((some d : Option PyDate), false) := hp
    simp at h2
  have hm2 : (pyStrip v == "-2") = false := by
    rw [beq_eq_false_iff_ne]
    intro h
    rw [h] at hp
    have h2 : ((none : Option PyDate), false) = ((some d : Option PyDate), false) := hp
    simp at h2
  have key : validate_field "DOB" v rt today = date_field_errors "DOB" (pyStrip v) today := by
    unfold validate_field
    show (if (false && !conditional_mandatory.contains "DOB" && (pyStrip v == "")) = true then
        [("MISSING", "Mandatory field is blank")]
      else if (pyStrip v == "") = true then []
      else if (pyStrip v == "-2" && false) = true then []
      else if ((some "date" : Option String) == some "date") = true then
        date_field_errors "DOB" (pyStrip v) today
      else shape_field_errors (FieldSpec.mk "DOB" false false none none none none none
        (some "date")) (pyStrip v)) = _
    rw [hnbB, hm2]
    rfl
  rw [key, date_field_errors_of_parsed "DOB" (pyStrip v) today d hp]
  have h19 : ¬(toOrdinal d < toOrdinal date1900) := not_lt.mpr h1900
  rw [if_neg h19, if_pos (show (("DOB" == "DOB") = true) from rfl)]
  by_cases hC : (4 * ((toOrdinal today : Int) - (toOrdinal d : Int)) < 7305 ||
      4 * ((toOrdinal today : Int) - (toOrdinal d : Int)) > 116880) = true
  · rw [if_pos hC]
    simp only [Bool.or_eq_true, decide_eq_true_eq] at hC
    simpa using hC
  · rw [if_neg hC]
    simp only [Bool.or_eq_true, decide_eq_true_eq, not_or, not_lt] at hC
    constructor
    · intro h
      simp at h
    · intro h
      rcases h with h | h
      · exact absurd h (not_lt.mpr hC.1)
      · exact absurd h (not_lt.mpr hC.2)

/-- C7: for a non-blank DOB value that parses as a real calendar date, the
field validator emits `DATE_RANGE` exactly when the age
`(today - d).days / 365.25` is below 5 or above 80; with 365.25 = 1461/4
this is the integer condition `4*days < 7305 ∨ 4*days > 116880`, which the
IEEE-double computation in the source decides identically.  The first
conjunct covers dates on or after 1900-01-01 for any clock value; the
second covers every parsed date whenever the clock reads 1981-01-01 or
later (as the real clock does), since any pre-1900 date is then also more
than 80 years old. -/
theorem dob_age_range (v rt : String) (today d : PyDate)
    (hp : parse_date (pyStrip v) = (some d, false)) :
    (toOrdinal date1900 ≤ toOrdinal d →
      ((validate_field "DOB" v rt today).any (fun ce => ce.1 == "DATE_RANGE") = true ↔
        (4 * ((toOrdinal today : Int) - (toOrdinal d : Int)) < 7305 ∨
         4 * ((toOrdinal today : Int) - (toOrdinal d : Int)) > 116880))) ∧
    (toOrdinal (⟨1981, 1, 1⟩ : PyDate) ≤ toOrdinal today →
      ((validate_field "DOB" v rt today).any (fun ce => ce.1 == "DATE_RANGE") = true ↔
        (4 * ((toOrdinal today : Int) - (toOrdinal d : Int)) < 7305 ∨
         4 * ((toOrdinal today : Int) - (toOrdinal d : Int)) > 116880))) := by
  constructor
  · exact fun h1900 => dob_age_range_of_1900 v rt today d hp h1900
  · intro htoday
    by_cases hd : toOrdinal date1900 ≤ toOrdinal d
    · exact dob_age_range_of_1900 v rt today d hp hd
    · have hnbB : (pyStrip v == "") = false := by
        rw [beq_eq_false_iff_ne]
        intro h
        rw [h] at hp
        have h2 : ((none : Option PyDate), false) = ((some d : Option PyDate), false) := hp
        simp at h2
      have hm2 : (pyStrip v == "-2") = false := by
        rw [beq_eq_false_iff_ne]
        intro h
        rw [h] at hp
        have h2 : ((none : Option PyDate), false) = ((some d : Option PyDate), false) := hp
        simp at h2
      have key : validate_field "DOB" v rt today = date_field_errors "DOB" (pyStrip v) today := by
        unfold validate_field
        show (if (false && !conditional_mandatory.contains "DOB" && (pyStrip v == "")) = true then
            [("MISSING", "Mandatory field is blank")]
          else if (pyStrip v == "") = true then []
          else if (pyStrip v == "-2" && false) = true then []
          else if ((some "date" : Option String) == some "date") = true then
            date_field_errors "DOB" (pyStrip v) today
          else shape_field_errors (FieldSpec.mk "DOB" false false none none none none none
            (some "date")) (pyStrip v)) = _
        rw [hnbB, hm2]
        rfl
      rw [key, date_field_errors_of_parsed "DOB" (pyStrip v) today d hp]
      rw [not_le] at hd
      rw [if_pos hd]
      have hage : 4 * ((toOrdinal today : Int) - (toOrdinal d : Int)) > 116880 := by
        have hgap : toOrdinal date1900 + 29220 < toOrdinal (⟨1981, 1, 1⟩ : PyDate) := by decide
        omega
      have hlhs : ((("DATE_RANGE",
          "Date " ++ pyRepr (pyStrip v) ++ " must be on or after 1900-01-01") ::
          (if (("DOB" : String) == "DOB") = true then
            (if 4 * ((toOrdinal today : Int) - (toOrdinal d : Int)) < 7305 ||
                4 * ((toOrdinal today : Int) - (toOrdinal d : Int)) > 116880 then
              [("DATE_RANGE", "Age from DOB " ++ pyRepr (pyStrip v) ++
                " must be between 5 and 80 years")]
             else [])
           else [])).any (fun ce => ce.1 == "DATE_RANGE")) = true := by
        simp
      exact iff_of_true hlhs (Or.inr hage)

/-- C7 (witness): the theorem applied to a DOB of 2025-01-01 as of
2026-10-12 (age below 5, so `DATE_RANGE` fires, matching the condition). -/
theorem dob_age_range_witness :
    (toOrdinal date1900 ≤ toOrdinal ⟨2025, 1, 1⟩ →
      ((validate_field "DOB" "2025-01-01" "" ⟨2026, 10, 12⟩).any
          (fun ce => ce.1 == "DATE_RANGE") = true ↔
        (4 * ((toOrdinal ⟨2026, 10, 12⟩ : Int) - (toOrdinal ⟨2025, 1, 1⟩ : Int)) < 7305 ∨
         4 * ((toOrdinal ⟨2026, 10, 12⟩ : Int) - (toOrdinal ⟨2025, 1, 1⟩ : Int)) > 116880))) ∧
    (toOrdinal (⟨1981, 1, 1⟩ : PyDate) ≤ toOrdinal ⟨2026, 10, 12⟩ →
      ((validate_field "DOB" "2025-01-01" "" ⟨2026, 10, 12⟩).any
          (fun ce => ce.1 == "DATE_RANGE") = true ↔
        (4 * ((toOrdinal ⟨2026, 10, 12⟩ : Int) - (toOrdinal ⟨2025, 1, 1⟩ : Int)) < 7305 ∨
         4 * ((toOrdinal ⟨2026, 10, 12⟩ : Int) - (toOrdinal ⟨2025, 1, 1⟩ : Int)) > 116880))) :=
  dob_age_range "2025-01-01" "" ⟨2026, 10, 12⟩ ⟨2025, 1, 1⟩ (by decide)

/-! ### C10: sentinel RegistrationDate produces no error anywhere -/

theorem sentinel_cases {x : String} (hs : SENTINEL_DATES.contains x = true) :
    x = "2999-12-31" ∨ x = "31/12/2999" := by
  simpa [SENTINEL_DATES] using hs

theorem result_amendment_errors_reg_none (row : String → String) (n : Nat) (today : PyDate)
    (hreg : (parse_date (pyStrip (row "RegistrationDate"))).1 = none) :
    result_amendment_errors row n today =
      result_amendment_errors (fun g => if g = "RegistrationDate" then "" else row g) n today := by
  unfold result_amendment_errors
  simp only [hreg]
  rfl

/-- C10: a RegistrationDate whose trimmed value is one of the two sentinel
spellings produces no validation error anywhere, for every record type:
field-level validation of RegistrationDate returns no errors at all, and the
record-level rules behave exactly as if RegistrationDate were blank — its
sentinel is never examined by the `SENTINEL_NOT_ALLOWED`, `DATE_FUTURE` or
date-order rules, even for Result and Amendment records. -/
theorem sentinel_registration_inert :
    (∀ v rt : String, ∀ today : PyDate, SENTINEL_DATES.contains (pyStrip v) = true →
      validate_field "RegistrationDate" v rt today = []) ∧
    (∀ row : String → String, ∀ n : Nat, ∀ today : PyDate,
      SENTINEL_DATES.contains (pyStrip (row "RegistrationDate")) = true →
      validate_record_level row n today =
        validate_record_level (fun g => if g = "RegistrationDate" then "" else row g) n today) := by
  constructor
  · intro v rt today hs
    rcases sentinel_cases hs with h | h <;> (unfold validate_field; rw [h]; rfl)
  · intro row n today hs
    have hreg : (parse_date (pyStrip (row "RegistrationDate"))).1 = none := by
      rcases sentinel_cases hs with h | h <;> (rw [h]; rfl)
    have hres := result_amendment_errors_reg_none row n today hreg
    unfold validate_record_level
    rw [hres]
    rfl

/-- C10 (witness): the theorem applied to the sentinel spelling
`2999-12-31` and to a concrete Result row carrying it. -/
theorem sentinel_registration_inert_witness :
    validate_field "RegistrationDate" "2999-12-31" "Result" ⟨2026, 10, 12⟩ = [] ∧
    validate_record_level
        (fun g => if g = "RegistrationDate" then "2999-12-31"
          else if g = "RecordType" then "Result" else "") 2 ⟨2026, 10, 12⟩ =
      validate_record_level
        (fun g => if g = "RegistrationDate" then ""
          else if g = "RegistrationDate" then "2999-12-31"
          else if g = "RecordType" then "Result" else "") 2 ⟨2026, 10, 12⟩ :=
  ⟨sentinel_registration_inert.1 "2999-12-31" "Result" ⟨2026, 10, 12⟩ (by decide),
   sentinel_registration_inert.2
     (fun g => if g = "RegistrationDate" then "2999-12-31"
       else if g = "RecordType" then "Result" else "") 2 ⟨2026, 10, 12⟩ (by decide)⟩

/-! ### C9: empty input, whitespace-only input, and the CSV reader -/

/-- Whether every carriage return in the character list is followed by a
carriage return, a line feed, or the end of input — the inputs on which the
CPython csv reader does not raise its "new-line character seen in unquoted
field" error. -/
def crOk : List Char → Bool
  | [] => true
  | c :: rest =>
    if c = '\r' then
      match rest with
      | [] => true
      | c2 :: _ => (c2 == '\r' || c2 == '\n') && crOk rest
    else crOk rest

theorem crOk_tail {c : Char} {rest : List Char} (h : crOk (c :: rest) = true) :
    crOk rest = true := by
  unfold crOk at h
  by_cases hc : c = '\r'
  · rw [if_pos hc] at h
    cases rest with
    | nil => rfl
    | cons c2 r2 =>
      simp only [Bool.and_eq_true] at h
      exact h.2
  · rw [if_neg hc] at h
    exact h

theorem crOk_head {c : Char} {c2 : Char} {r2 : List Char}
    (h : crOk (c :: c2 :: r2) = true) (hc : c = '\r') : c2 = '\r' ∨ c2 = '\n' := by
  unfold crOk at h
  rw [if_pos hc] at h
  simp only [Bool.and_eq_true, Bool.or_eq_true, beq_iff_eq] at h
  exact h.1

theorem string_ne_empty_data {s : String} (h : s ≠ "") : s.data ≠ [] := by
  intro hd
  exact h (congrArg String.mk hd)

theorem csvGo_ok_ne_nil : ∀ (cs : List Char) (mode : CsvMode) (rows : List (List String)),
    csvGo cs mode = .ok rows → (mode ≠ CsvMode.startRecord ∨ cs ≠ []) → rows ≠ [] := by
  intro cs
  induction cs with
  | nil =>
    intro mode rows h hside
    cases mode with
    | startRecord =>
      rcases hside with h1 | h2
      · exact absurd rfl h1
      · exact absurd rfl h2
    | inField row fld =>
      have h2 : Except.ok (ε := Unit) [row ++ [String.mk fld]] = Except.ok rows := h
      rw [← Except.ok.inj h2]
      simp
    | eatCrnl pending =>
      have h2 : Except.ok (ε := Unit) [pending] = Except.ok rows := h
      rw [← Except.ok.inj h2]
      simp
  | cons c rest ih =>
    intro mode rows h hside
    cases mode with
    | startRecord =>
      simp only [csvGo] at h
      by_cases h1 : c = '\n'
      · rw [if_pos h1] at h
        cases h3 : csvGo rest CsvMode.startRecord with
        | error e => rw [h3] at h; exact absurd h (by simp [Except.map])
        | ok l =>
          rw [h3] at h
          simp only [Except.map] at h
          rw [← Except.ok.inj h]
          simp
      · rw [if_neg h1] at h
        by_cases h2 : c = '\r'
        · rw [if_pos h2] at h
          exact ih _ rows h (Or.inl (by simp))
        · rw [if_neg h2] at h
          by_cases h3 : c = ','
          · rw [if_pos h3] at h
            exact ih _ rows h (Or.inl (by simp))
          · rw [if_neg h3] at h
            exact ih _ rows h (Or.inl (by simp))
    | inField row fld =>
      simp only [csvGo] at h
      by_cases h1 : c = ','
      · rw [if_pos h1] at h
        exact ih _ rows h (Or.inl (by simp))
      · rw [if_neg h1] at h
        by_cases h2 : c = '\n'
        · rw [if_pos h2] at h
          cases h3 : csvGo rest CsvMode.startRecord with
          | error e => rw [h3] at h; exact absurd h (by simp [Except.map])
          | ok l =>
            rw [h3] at h
            simp only [Except.map] at h
            rw [← Except.ok.inj h]
            simp
        · rw [if_neg h2] at h
          by_cases h3 : c = '\r'
          · rw [if_pos h3] at h
            exact ih _ rows h (Or.inl (by simp))
          · rw [if_neg h3] at h
            exact ih _ rows h (Or.inl (by simp))
    | eatCrnl pending =>
      simp only [csvGo] at h
      by_cases h1 : c = '\n'
      · rw [if_pos h1] at h
        cases h3 : csvGo rest CsvMode.startRecord with
        | error e => rw [h3] at h; exact absurd h (by simp [Except.map])
        | ok l =>
          rw [h3] at h
          simp only [Except.map] at h
          rw [← Except.ok.inj h]
          simp
      · rw [if_neg h1] at h
        by_cases h2 : c = '\r'
        · rw [if_pos h2] at h
          exact ih _ rows h (Or.inl (by simp))
        · rw [if_neg h2] at h
          exact absurd h (by simp)

/-- Invariant carried through the csv automaton on whitespace-only input:
all accumulated strings are whitespace-only, and in the CR-eating state the
next character (if any) is CR or LF. -/
def csvModeWsInv (cs : List Char) : CsvMode → Prop
  | .startRecord => True
  | .inField row fld =>
    (∀ s ∈ row, ∀ c ∈ s.data, isPyWs c = true) ∧ (∀ c ∈ fld, isPyWs c = true)
  | .eatCrnl pending =>
    (∀ s ∈ pending, ∀ c ∈ s.data, isPyWs c = true) ∧
      (cs = [] ∨ ∃ c2 cs2, cs = c2 :: cs2 ∧ (c2 = '\r' ∨ c2 = '\n'))

theorem csvGo_ws : ∀ (cs : List Char) (mode : CsvMode),
    (∀ c ∈ cs, isPyWs c = true) → crOk cs = true → csvModeWsInv cs mode →
    ∃ rows, csvGo cs mode = .ok rows ∧
      ∀ r ∈ rows, ∀ s ∈ r, ∀ c ∈ s.data, isPyWs c = true := by
  intro cs
  induction cs with
  | nil =>
    intro mode hws hcr hinv
    cases mode with
    | startRecord => exact ⟨[], rfl, by simp⟩
    | inField row fld =>
      refine ⟨[row ++ [String.mk fld]], rfl, ?_⟩
      intro r hr s hs c hc
      rw [List.mem_singleton] at hr
      subst hr
      rcases List.mem_append.mp hs with h | h
      · exact hinv.1 s h c hc
      · rw [List.mem_singleton] at h
        subst h
        exact hinv.2 c hc
    | eatCrnl pending =>
      refine ⟨[pending], rfl, ?_⟩
      intro r hr s hs c hc
      rw [List.mem_singleton] at hr
      subst hr
      exact hinv.1 s hs c hc
  | cons ch rest ih =>
    intro mode hws hcr hinv
    have hwc : isPyWs ch = true := hws ch (List.mem_cons_self ch rest)
    have hwr : ∀ c ∈ rest, isPyWs c = true := fun c hc => hws c (List.mem_cons_of_mem ch hc)
    have hcrr : crOk rest = true := crOk_tail hcr
    have hcomma : ¬(ch = ',') := by
      intro h
      rw [h] at hwc
      exact absurd hwc (by decide)
    cases mode with
    | startRecord =>
      by_cases h1 : ch = '\n'
      · obtain ⟨rows2, hok, hws2⟩ := ih CsvMode.startRecord hwr hcrr trivial
        refine ⟨[] :: rows2, ?_, ?_⟩
        · simp only [csvGo, if_pos h1, hok, Except.map]
        · intro r hr
          rcases List.mem_cons.mp hr with rfl | hr2
          · simp
          · exact hws2 r hr2
      · by_cases h2 : ch = '\r'
        · have hinv2 : csvModeWsInv rest (CsvMode.eatCrnl []) := by
            refine ⟨by simp, ?_⟩
            cases rest with
            | nil => exact Or.inl rfl
            | cons c2 r2 => exact Or.inr ⟨c2, r2, rfl, crOk_head hcr h2⟩
          obtain ⟨rows2, hok, hws2⟩ := ih (CsvMode.eatCrnl []) hwr hcrr hinv2
          refine ⟨rows2, ?_, hws2⟩
          simp only [csvGo, if_neg h1, if_pos h2, hok]
        · have hinv2 : csvModeWsInv rest (CsvMode.inField [] [ch]) := by
            refine ⟨by simp, ?_⟩
            intro c hc
            rw [List.mem_singleton] at hc
            subst hc
            exact hwc
          obtain ⟨rows2, hok, hws2⟩ := ih (CsvMode.inField [] [ch]) hwr hcrr hinv2
          refine ⟨rows2, ?_, hws2⟩
          simp only [csvGo, if_neg h1, if_neg h2, if_neg hcomma, hok]
    | inField row fld =>
      by_cases h1 : ch = '\n'
      · obtain ⟨rows2, hok, hws2⟩ := ih CsvMode.startRecord hwr hcrr trivial
        refine ⟨(row ++ [String.mk fld]) :: rows2, ?_, ?_⟩
        · simp only [csvGo, if_neg hcomma, if_pos h1, hok, Except.map]
        · intro r hr
          rcases List.mem_cons.mp hr with rfl | hr2
          · intro s hs c hc
            rcases List.mem_append.mp hs with h | h
            · exact hinv.1 s h c hc
            · rw [List.mem_singleton] at h
              subst h
              exact hinv.2 c hc
          · exact hws2 r hr2
      · by_cases h2 : ch = '\r'
        · have hinv2 : csvModeWsInv rest (CsvMode.eatCrnl (row ++ [String.mk fld])) := by
            constructor
            · intro s hs c hc
              rcases List.mem_append.mp hs with h | h
              · exact hinv.1 s h c hc
              · rw [List.mem_singleton] at h
                subst h
                exact hinv.2 c hc
            · cases rest with
              | nil => exact Or.inl rfl
              | cons c2 r2 => exact Or.inr ⟨c2, r2, rfl, crOk_head hcr h2⟩
          obtain ⟨rows2, hok, hws2⟩ := ih _ hwr hcrr hinv2
          refine ⟨rows2, ?_, hws2⟩
          simp only [csvGo, if_neg hcomma, if_neg h1, if_pos h2, hok]
        · have hinv2 : csvModeWsInv rest (CsvMode.inField row (fld ++ [ch])) := by
            refine ⟨hinv.1, ?_⟩
            intro c hc
            rcases List.mem_append.mp hc with h | h
            · exact hinv.2 c h
            · rw [List.mem_singleton] at h
              subst h
              exact hwc
          obtain ⟨rows2, hok, hws2⟩ := ih _ hwr hcrr hinv2
          refine ⟨rows2, ?_, hws2⟩
          simp only [csvGo, if_neg hcomma, if_neg h1, if_neg h2, hok]
    | eatCrnl pending =>
      rcases hinv.2 with h | ⟨c2, cs2, heq, hc2⟩
      · exact absurd h (by simp)
      · obtain ⟨hch, -⟩ := List.cons_eq_cons.mp heq
        rw [← hch] at hc2
        by_cases h1 : ch = '\n'
        · obtain ⟨rows2, hok, hws2⟩ := ih CsvMode.startRecord hwr hcrr trivial
          refine ⟨pending :: rows2, ?_, ?_⟩
          · simp only [csvGo, if_pos h1, hok, Except.map]
          · intro r hr
            rcases List.mem_cons.mp hr with rfl | hr2
            · exact hinv.1
            · exact hws2 r hr2
        · have h2 : ch = '\r' := by
            rcases hc2 with h | h
            · exact h
            · exact absurd h h1
          have hinv2 : csvModeWsInv rest (CsvMode.eatCrnl pending) := by
            refine ⟨hinv.1, ?_⟩
            cases rest with
            | nil => exact Or.inl rfl
            | cons c3 r3 => exact Or.inr ⟨c3, r3, rfl, crOk_head hcr h2⟩
          obtain ⟨rows2, hok, hws2⟩ := ih _ hwr hcrr hinv2
          refine ⟨rows2, ?_, hws2⟩
          simp only [csvGo, if_neg h1, if_pos h2, hok]

theorem ws_header_ne (hdr : List String)
    (h : ∀ cell ∈ hdr, ∀ c ∈ cell.data, isPyWs c = true) :
    ¬(hdr.map stripHeaderCell = EXPECTED_COLUMNS) := by
  intro heq
  cases hdr with
  | nil => exact absurd heq (by decide)
  | cons a t =>
    have h1 : stripHeaderCell a = "RecordType" := by
      have h2 := congrArg List.head? heq
      simpa [EXPECTED_COLUMNS] using h2
    rw [stripHeaderCell_of_all_ws (h a (List.mem_cons_self a t))] at h1
    exact absurd h1 (by decide)

theorem runRows_ws_nil (today : PyDate) :
    ∀ (rows : List (List String)) (seen : List (List String)) (idx : Nat),
      (∀ r ∈ rows, ∀ cell ∈ r, ∀ c ∈ cell.data, isPyWs c = true) →
      runRows today rows seen idx = [] := by
  intro rows
  induction rows with
  | nil => intro seen idx _; rfl
  | cons row rest ih =>
    intro seen idx h
    have hall : (row.all fun cell => pyStrip cell == "") = true := by
      rw [List.all_eq_true]
      intro cell hc
      rw [pyStrip_of_all_ws (h row (List.mem_cons_self row rest) cell hc)]
      rfl
    have hpr : processRow today seen (idx + 1) row = ([], seen) := by
      unfold processRow
      rw [hall]
      rfl
    show (processRow today seen (idx + 1) row).1 ++
      runRows today rest (processRow today seen (idx + 1) row).2 (idx + 1) = []
    rw [hpr]
    exact ih seen (idx + 1) (fun r hr => h r (List.mem_cons_of_mem row hr))

/-- C9 (counterexample): the input `" \r "` is non-empty and consists only
of whitespace characters, yet the validator does not return a single
`HEADER_MISMATCH` error: the csv reader raises `csv.Error` on a carriage
return followed by a space, and the exception propagates. -/
theorem whitespace_input_can_raise :
    (" \r " ≠ "") ∧ (∀ c ∈ (" \r ").data, isPyWs c = true) ∧
    validate_csv_text " \r " ⟨2026, 10, 12⟩ = Except.error () := by
  refine ⟨by decide, by decide, rfl⟩

/-- C9 (amended): the validator emits the `EMPTY` error exactly when the
input text is completely empty (no CSV rows at all); a non-empty
whitespace-only input in which every carriage return is followed by another
carriage return, a line feed, or the end of input yields exactly one
`HEADER_MISMATCH` error at row 1 with field `*HEADER*` and nothing else;
whitespace-only inputs violating that proviso make the csv reader raise, so
no error list is returned at all (see the counterexample). -/
theorem empty_and_whitespace_only_inputs :
    (∀ today : PyDate, validate_csv_text "" today = .ok [emptyFileError]) ∧
    (∀ (s : String) (today : PyDate) (res : List ValidationError),
      validate_csv_text s today = .ok res → s ≠ "" →
      ∀ e ∈ res, e.error_code ≠ "EMPTY") ∧
    (∀ (s : String) (today : PyDate), s ≠ "" → (∀ c ∈ s.data, isPyWs c = true) →
      crOk s.data = true →
      ∃ e, validate_csv_text s today = .ok [e] ∧
        e.row_number = 1 ∧ e.field = "*HEADER*" ∧ e.error_code = "HEADER_MISMATCH") := by
  refine ⟨fun _ => rfl, ?_, ?_⟩
  · intro s today res hok hne e he
    unfold validate_csv_text at hok
    cases hp : parseCsv s with
    | error err => rw [hp] at hok; exact absurd hok (by simp [Except.map])
    | ok rows =>
      rw [hp] at hok
      simp only [Except.map] at hok
      obtain rfl := Except.ok.inj hok
      have hne2 : rows ≠ [] :=
        csvGo_ok_ne_nil s.data CsvMode.startRecord rows hp
          (Or.inr (string_ne_empty_data hne))
      cases rows with
      | nil => exact absurd rfl hne2
      | cons header rest =>
        unfold validate_csv_stream at he
        rcases List.mem_append.mp he with h | h
        · obtain ⟨-, rfl⟩ := mem_ite_singleton h
          simp [headerMismatchError]
        · obtain ⟨-, hcode, -⟩ := runRows_mem today rest [] 1 e h
          exact fun hcontra => dataRowCodes_ne_empty _ hcode hcontra
  · intro s today hne hws hcr
    obtain ⟨rows, hok, hwrows⟩ := csvGo_ws s.data CsvMode.startRecord hws hcr trivial
    have hne2 : rows ≠ [] :=
      csvGo_ok_ne_nil s.data CsvMode.startRecord rows hok
        (Or.inr (string_ne_empty_data hne))
    cases rows with
    | nil => exact absurd rfl hne2
    | cons header rest =>
      have hhdr : ¬(header.map stripHeaderCell = EXPECTED_COLUMNS) :=
        ws_header_ne header (hwrows header (List.mem_cons_self header rest))
      have hcond : (!(header.map stripHeaderCell == EXPECTED_COLUMNS)) = true := by
        simpa using hhdr
      have hrun : runRows today rest [] 1 = [] :=
        runRows_ws_nil today rest [] 1
          (fun r hr => hwrows r (List.mem_cons_of_mem header hr))
      refine ⟨headerMismatchError (header.map stripHeaderCell), ?_, rfl, rfl, rfl⟩
      unfold validate_csv_text
      rw [show parseCsv s = Except.ok (header :: rest) from hok]
      simp only [Except.map]
      have hstream : validate_csv_stream (header :: rest) today =
          [headerMismatchError (header.map stripHeaderCell)] := by
        show (if (!(header.map stripHeaderCell == EXPECTED_COLUMNS)) = true then
            [headerMismatchError (header.map stripHeaderCell)] else []) ++
              runRows today rest [] 1 = _
        rw [if_pos hcond, hrun]
        rfl
      rw [hstream]

set_option maxRecDepth 4096 in
/-- C9 (witness): the amended theorem applied to the whitespace-only input
`" \n \n"`: the result is exactly one `HEADER_MISMATCH` at row 1. -/
theorem empty_and_whitespace_only_inputs_witness :
    validate_csv_text "" ⟨2026, 10, 12⟩ = .ok [emptyFileError] ∧
    (∀ e ∈ [headerMismatchError ["x"]], e.error_code ≠ "EMPTY") ∧
    (∃ e, validate_csv_text " \n \n" ⟨2026, 10, 12⟩ = .ok [e] ∧
      e.row_number = 1 ∧ e.field = "*HEADER*" ∧ e.error_code = "HEADER_MISMATCH") :=
  ⟨empty_and_whitespace_only_inputs.1 ⟨2026, 10, 12⟩,
   empty_and_whitespace_only_inputs.2.1 "x" ⟨2026, 10, 12⟩ [headerMismatchError ["x"]]
     rfl (by decide),
   empty_and_whitespace_only_inputs.2.2 " \n \n" ⟨2026, 10, 12⟩ (by decide) (by decide)
     (by decide)⟩
